import Mathlib

/-!
# Verification of the `canopen` CANopen library (almedso/canopen)

Shallow embedding of the library's frame codec, frame builders, object
dictionary and SDO client/server dispatch, translated from the Rust sources
(`canopen-lib/src/frame/**`, `canopen-lib/src/node/**`,
`canopen-lib/src/util.rs`, `canopen-lib/src/sdo_client.rs`,
`cot/src/main.rs`), together with theorems settling the specification
claims about them.

Modelling conventions:

* Machine integers (`u8`/`u16`/`u32`/`i8`/`i16`/`i32`) are modelled as `Nat`
  bit patterns, with explicit `% 2^w` truncation where the Rust code
  truncates (`as u8`, `.lo()`, ...).  Signed values are represented by their
  two's-complement bit pattern, which is what every operation in scope
  (byte (de)serialisation, equality) acts on.
* `f32` values are modelled by their 32-bit IEEE-754 bit pattern.
  `to_le_bytes`/`from_le_bytes` are byte shuffles of the pattern;
  Rust's `f32::eq` is modelled bit-precisely (`f32EqBits`), including the
  NaN and signed-zero cases; the `u32 as f32` cast is modelled by
  round-to-nearest-even conversion (`natToF32Bits`).
* Rust `&str` values are modelled by their UTF-8 byte sequence (`List Nat`).
* Fallible Rust functions return `Except CanOpenError _`; functions that can
  `panic!` (or hit an out-of-bounds index) additionally wrap the result in
  `Option`, where `none` marks the panic.
* The `CanOpenError` enum declaration itself is not part of the provided
  sources (only its uses are); its variants are modelled from the spec's
  error taxonomy (§4.G), carrying exactly the payloads the sources mention.
* The mutex around mutable object-dictionary entries always succeeds in this
  single-threaded model (`v.lock()` never fails), so `SharedOdAccessError`
  is never produced.
* The object dictionary's `update_pdo` / `persist_value` change hooks are
  unimplemented collaborator stubs in the source (`todo!()`); following the
  spec, which treats them as out-of-scope collaborators, the embedding
  records their invocations in an explicit trace and lets them succeed.
* The CAN socket is replaced by explicit frame lists: inbound traffic is a
  `List CANOpenFrame` consumed in order, and exhausting it stands for the
  response that never arrives, surfacing as `SdoProtocolTimedOut` exactly
  like the 500 ms select-timeout in the source.
-/

namespace Canopen

/-! ## Value variants and helpers (`canopen-lib/src/util.rs`) -/

/-- `ValueVariant` from `util.rs`: tagged union over the storable value
types.  Integer variants carry their bit pattern, `F32` carries the IEEE-754
bit pattern, `S` carries the UTF-8 bytes of the `&str`. -/
inductive ValueVariant where
  | U8 (n : Nat)
  | U16 (n : Nat)
  | U32 (n : Nat)
  | I8 (n : Nat)
  | I32 (n : Nat)
  | I16 (n : Nat)
  | F32 (bits : Nat)
  | S (bytes : List Nat)
  deriving DecidableEq, Repr

/-- Bit pattern test: 32-bit NaN (exponent all ones, mantissa nonzero). -/
def f32IsNaN (b : Nat) : Bool :=
  (b >>> 23) % 256 == 255 && b % 2 ^ 23 != 0

/-- Bit pattern test: 32-bit zero of either sign. -/
def f32IsZero (b : Nat) : Bool :=
  b % 2 ^ 31 == 0

/-- Rust `f32 == f32` on bit patterns: NaN compares unequal to everything,
`+0.0 == -0.0`, and otherwise distinct patterns denote distinct values. -/
def f32EqBits (a b : Nat) : Bool :=
  !f32IsNaN a && !f32IsNaN b && (a == b || (f32IsZero a && f32IsZero b))

/-- Rust `PartialEq` for `ValueVariant` (derived in the source): same
variant and equal payloads, with `f32` equality for `F32`. -/
def valueVariantEq : ValueVariant → ValueVariant → Bool
  | .U8 a, .U8 b => a == b
  | .U16 a, .U16 b => a == b
  | .U32 a, .U32 b => a == b
  | .I8 a, .I8 b => a == b
  | .I16 a, .I16 b => a == b
  | .I32 a, .I32 b => a == b
  | .F32 a, .F32 b => f32EqBits a b
  | .S a, .S b => a == b
  | _, _ => false

/-- `core::mem::discriminant` comparison on `ValueVariant`. -/
def sameDiscriminant : ValueVariant → ValueVariant → Bool
  | .U8 _, .U8 _ => true
  | .U16 _, .U16 _ => true
  | .U32 _, .U32 _ => true
  | .I8 _, .I8 _ => true
  | .I16 _, .I16 _ => true
  | .I32 _, .I32 _ => true
  | .F32 _, .F32 _ => true
  | .S _, .S _ => true
  | _, _ => false

/-- Modelled from the spec: the library-wide `CanOpenError` enum (spec
§4.G).  Its declaration is not among the provided sources; every variant
below is used by the provided sources with exactly these payloads. -/
inductive CanOpenError where
  | InvalidCobId (cob_id : Nat)
  | InvalidNodeId (node_id : Nat)
  | InvalidDataLength (length : Nat)
  | BuilderError
  | SdoPayloadParseError
  | SdoPayloadNotImplementedYet
  | SdoProtocolTimedOut
  | SdoAbortCodeError (abort_code : Nat)
  | SocketInstanciatingError
  | SocketWriteError
  | InvalidNumber (invalid_number : List Nat)
  | InvalidNumberType (number_type : List Nat)
  | StringIsTooLong (max_length : Nat) (given_length : Nat)
  | ObjectDoesNotExist (index : Nat) (subindex : Nat)
  | WritingForbidden
  | ReadAccessImpossible
  | CannotWriteToConstStorage
  | SharedOdAccessError
  | Formatting
  deriving DecidableEq, Repr

/-- Decidable equality for `Except` results (not provided by core). -/
instance instDecEqExcept {ε α : Type _} [DecidableEq ε] [DecidableEq α] :
    DecidableEq (Except ε α) := fun a b =>
  match a, b with
  | .ok x, .ok y =>
      if h : x = y then .isTrue (by simp [h]) else .isFalse (by simp [h])
  | .ok _, .error _ => .isFalse (by simp)
  | .error _, .ok _ => .isFalse (by simp)
  | .error e, .error f =>
      if h : e = f then .isTrue (by simp [h]) else .isFalse (by simp [h])

/-- `Split::lo` for `u16`: `*self as u8`. -/
def u16lo (n : Nat) : Nat := n % 256

/-- `Split::hi` for `u16`: `(*self >> 8) as u8`. -/
def u16hi (n : Nat) : Nat := (n >>> 8) % 256

/-- `Split::lo` for `u32`: `*self as u16`. -/
def u32lo (n : Nat) : Nat := n % 2 ^ 16

/-- `Split::hi` for `u32`: `(*self >> 16) as u16`. -/
def u32hi (n : Nat) : Nat := (n >>> 16) % 2 ^ 16

/-- `map_index` from `util.rs`: `((index as u32) << 8) + subindex`. -/
def map_index (index : Nat) (subindex : Nat) : Nat :=
  (index <<< 8) + subindex

/-- Byte width used by `ValueVariant::to_little_endian_buffer`
(`U8`/`I8`: 1, `U16`/`I16`: 2, `U32`/`I32`/`F32`: 4, strings: 0). -/
def variantByteWidth : ValueVariant → Nat
  | .U8 _ | .I8 _ => 1
  | .U16 _ | .I16 _ => 2
  | .U32 _ | .I32 _ | .F32 _ => 4
  | .S _ => 0

/-- `ValueVariant::to_little_endian_buffer` from `util.rs`: writes the
variant little-endian into a caller buffer of length `bufLen` and returns
the written prefix; `none` models the `panic!("Buffer to small")` when the
buffer is shorter than the variant's byte width.  String variants return
the empty prefix (the source's wildcard arm `_ => &buf[0..0]`). -/
def to_little_endian_buffer (v : ValueVariant) (bufLen : Nat) : Option (List Nat) :=
  match v with
  | .U8 n => if bufLen < 1 then none else some [n % 256]
  | .I8 n => if bufLen < 1 then none else some [n % 256]
  | .U16 n => if bufLen < 2 then none else some [u16lo n, u16hi n]
  | .I16 n => if bufLen < 2 then none else some [u16lo n, u16hi n]
  | .U32 n =>
      if bufLen < 4 then none
      else some [u16lo (u32lo n), u16hi (u32lo n), u16lo (u32hi n), u16hi (u32hi n)]
  | .I32 n =>
      if bufLen < 4 then none
      else some [u16lo (u32lo n), u16hi (u32lo n), u16lo (u32hi n), u16hi (u32hi n)]
  | .F32 bits =>
      if bufLen < 4 then none
      else some [bits % 256, (bits >>> 8) % 256, (bits >>> 16) % 256, (bits >>> 24) % 256]
  | .S _ => some []

/-! ## SDO command bytes and abort codes (`canopen-lib/src/frame/sdo/mod.rs`) -/

/-- Client command specifier (ccs), `frame/sdo/mod.rs`.  The frame-builder
source refers to `Download` as `InitiateDownload` and `Upload` as
`InitiateUpload`; the numeric codes (and the builder's own wire-byte tests)
identify them with these variants. -/
inductive ClientCommandSpecifier where
  | DownloadSegment
  | Download
  | Upload
  | UploadSegment
  | BlockUpload
  | BlockDownload
  | Unspecified
  deriving DecidableEq, Repr

/-- `ClientCommandSpecifier` discriminant values (`IntoPrimitive`). -/
def ClientCommandSpecifier.intoU8 : ClientCommandSpecifier → Nat
  | .DownloadSegment => 0x00
  | .Download => 0x20
  | .Upload => 0x40
  | .UploadSegment => 0x60
  | .BlockUpload => 0xA0
  | .BlockDownload => 0xC0
  | .Unspecified => 0xE0

/-- `impl From<u8> for ClientCommandSpecifier`: match on the top three
bits. -/
def ClientCommandSpecifier.fromU8 (data : Nat) : ClientCommandSpecifier :=
  match data % 256 >>> 5 with
  | 0 => .DownloadSegment
  | 1 => .Download
  | 2 => .Upload
  | 3 => .UploadSegment
  | 5 => .BlockUpload
  | 6 => .BlockDownload
  | _ => .Unspecified

/-- Server command specifier (scs), `frame/sdo/mod.rs`.  The frame-builder
source refers to `Download` as `DownloadResponse` and `Upload` as
`UploadResponse`; the numeric codes identify them with these variants. -/
inductive ServerCommandSpecifier where
  | UploadSegment
  | DownloadSegment
  | Upload
  | Download
  | Abort
  | BlockUpload
  | BlockDownload
  | Unspecified
  deriving DecidableEq, Repr

/-- `ServerCommandSpecifier` discriminant values (`IntoPrimitive`). -/
def ServerCommandSpecifier.intoU8 : ServerCommandSpecifier → Nat
  | .UploadSegment => 0x00
  | .DownloadSegment => 0x20
  | .Upload => 0x40
  | .Download => 0x60
  | .Abort => 0x80
  | .BlockUpload => 0xA0
  | .BlockDownload => 0xC0
  | .Unspecified => 0xE0

/-- `impl From<u8> for ServerCommandSpecifier`. -/
def ServerCommandSpecifier.fromU8 (data : Nat) : ServerCommandSpecifier :=
  match data % 256 >>> 5 with
  | 0 => .UploadSegment
  | 1 => .DownloadSegment
  | 2 => .Upload
  | 3 => .Download
  | 4 => .Abort
  | 5 => .BlockUpload
  | 6 => .BlockDownload
  | _ => .Unspecified

/-- `CommandSpecifier`: either a client or a server command specifier. -/
inductive CommandSpecifier where
  | Ccs (x : ClientCommandSpecifier)
  | Scs (x : ServerCommandSpecifier)
  deriving DecidableEq, Repr

/-- `impl Into<u8> for CommandSpecifier`. -/
def CommandSpecifier.intoU8 : CommandSpecifier → Nat
  | .Ccs x => x.intoU8
  | .Scs x => x.intoU8

/-- `SDOAbortCode` from `frame/sdo/mod.rs`: closed set of abort reasons
plus a catch-all carrying the raw 32-bit code. -/
inductive SDOAbortCode where
  | UnknownAbortCode (x : Nat)
  | ToggleBitNotAlternated
  | SDOProtocolTimedOut
  | ClientCommandSpecifierError
  | InvalidBlockSize
  | InvalidSequenceNumber
  | CRCError
  | OutOfMemory
  | UnsupportedAccess
  | ReadWriteOnlyError
  | WriteReadOnlyError
  | ObjectDoesNotExist
  | ObjectCannotBeMapped
  | PDOOverflow
  | ParameterIncompatibility
  | InternalIncompatibility
  | HardwareError
  | WrongLength
  | TooLong
  | TooShort
  | SubindexDoesNotExist
  | WrongValue
  | ValueTooHigh
  | ValueTooLow
  | RangeError
  | GeneralError
  | StorageError
  | LocalControlError
  | DeviceStateError
  | DictionaryError
  deriving DecidableEq, Repr

/-- `impl From<u32> for SDOAbortCode`. -/
def SDOAbortCode.fromU32 (abort_code : Nat) : SDOAbortCode :=
  if abort_code == 0x05030000 then .ToggleBitNotAlternated
  else if abort_code == 0x05040000 then .SDOProtocolTimedOut
  else if abort_code == 0x05040001 then .ClientCommandSpecifierError
  else if abort_code == 0x05040002 then .InvalidBlockSize
  else if abort_code == 0x05040003 then .InvalidSequenceNumber
  else if abort_code == 0x05040004 then .CRCError
  else if abort_code == 0x05040005 then .OutOfMemory
  else if abort_code == 0x06010000 then .UnsupportedAccess
  else if abort_code == 0x06010001 then .ReadWriteOnlyError
  else if abort_code == 0x06010002 then .WriteReadOnlyError
  else if abort_code == 0x06020000 then .ObjectDoesNotExist
  else if abort_code == 0x06040041 then .ObjectCannotBeMapped
  else if abort_code == 0x06040042 then .PDOOverflow
  else if abort_code == 0x06040043 then .ParameterIncompatibility
  else if abort_code == 0x06040047 then .InternalIncompatibility
  else if abort_code == 0x06060000 then .HardwareError
  else if abort_code == 0x06070010 then .WrongLength
  else if abort_code == 0x06070012 then .TooLong
  else if abort_code == 0x06070013 then .TooShort
  else if abort_code == 0x06090011 then .SubindexDoesNotExist
  else if abort_code == 0x06090030 then .WrongValue
  else if abort_code == 0x06090031 then .ValueTooHigh
  else if abort_code == 0x06090032 then .ValueTooLow
  else if abort_code == 0x06090036 then .RangeError
  else if abort_code == 0x08000000 then .GeneralError
  else if abort_code == 0x08000020 then .StorageError
  else if abort_code == 0x08000021 then .LocalControlError
  else if abort_code == 0x08000022 then .DeviceStateError
  else if abort_code == 0x08000023 then .DictionaryError
  else .UnknownAbortCode abort_code

/-- `impl Into<u32> for SDOAbortCode`, byte-for-byte from the source —
including the source's mapping of `ReadWriteOnlyError` to `0x0601_0000`
(the same constant as `UnsupportedAccess`). -/
def SDOAbortCode.intoU32 : SDOAbortCode → Nat
  | .ToggleBitNotAlternated => 0x05030000
  | .SDOProtocolTimedOut => 0x05040000
  | .ClientCommandSpecifierError => 0x05040001
  | .InvalidBlockSize => 0x05040002
  | .InvalidSequenceNumber => 0x05040003
  | .CRCError => 0x05040004
  | .OutOfMemory => 0x05040005
  | .UnsupportedAccess => 0x06010000
  | .ReadWriteOnlyError => 0x06010000
  | .WriteReadOnlyError => 0x06010002
  | .ObjectDoesNotExist => 0x06020000
  | .ObjectCannotBeMapped => 0x06040041
  | .PDOOverflow => 0x06040042
  | .ParameterIncompatibility => 0x06040043
  | .InternalIncompatibility => 0x06040047
  | .HardwareError => 0x06060000
  | .WrongLength => 0x06070010
  | .TooLong => 0x06070012
  | .TooShort => 0x06070013
  | .SubindexDoesNotExist => 0x06090011
  | .WrongValue => 0x06090030
  | .ValueTooHigh => 0x06090031
  | .ValueTooLow => 0x06090032
  | .RangeError => 0x06090036
  | .GeneralError => 0x08000000
  | .StorageError => 0x08000020
  | .LocalControlError => 0x08000021
  | .DeviceStateError => 0x08000022
  | .DictionaryError => 0x08000023
  | .UnknownAbortCode x => x

/-- `CommandDataSize`: bits 3..2 (`n` field) together with bit 0
(size-indicated flag) of the SDO command byte. -/
inductive CommandDataSize where
  | OneByte
  | TwoBytes
  | ThreeBytes
  | FourBytes
  | NotSet
  deriving DecidableEq, Repr

/-- `CommandDataSize` discriminant values (`IntoPrimitive`): the size bits
plus the indication bit. -/
def CommandDataSize.intoU8 : CommandDataSize → Nat
  | .OneByte => 0x0D
  | .TwoBytes => 0x09
  | .ThreeBytes => 0x05
  | .FourBytes => 0x01
  | .NotSet => 0x00

/-- `impl From<u8> for CommandDataSize`: match on `data & 0b1101`; with the
indication bit clear the size is `NotSet` regardless of bits 3..2. -/
def CommandDataSize.fromU8 (data : Nat) : CommandDataSize :=
  match data % 256 &&& 0x0D with
  | 0x01 => .FourBytes
  | 0x05 => .ThreeBytes
  | 0x09 => .TwoBytes
  | 0x0D => .OneByte
  | _ => .NotSet

/-- `extract_length` from `frame/sdo/mod.rs`. -/
def extract_length : CommandDataSize → Nat
  | .NotSet => 0
  | .OneByte => 1
  | .TwoBytes => 2
  | .ThreeBytes => 3
  | .FourBytes => 4

/-- `WithIndexPayload`: first frame of an SDO exchange, carrying index and
subindex. -/
structure WithIndexPayload where
  cs : CommandSpecifier
  size : CommandDataSize
  expedited_flag : Bool
  index : Nat
  subindex : Nat
  data : Nat
  deriving DecidableEq, Repr

/-- `WithoutIndexPayload`: segment frame of a segmented SDO transfer. -/
structure WithoutIndexPayload where
  cs : CommandSpecifier
  toggle : Bool
  length_of_empty_bytes : Option Nat
  data : List Nat
  deriving DecidableEq, Repr

/-- `impl Into<SdoPayloadData> for WithIndexPayload`: the 8 wire bytes
`[cmd, idx_lo, idx_hi, sub, d0, d1, d2, d3]` with the data little-endian. -/
def WithIndexPayload.intoPayloadData (p : WithIndexPayload) : List Nat :=
  let expedited_bit := if p.expedited_flag then 0x02 else 0x00
  [p.size.intoU8 + p.cs.intoU8 + expedited_bit,
   u16lo p.index, u16hi p.index, p.subindex % 256,
   u16lo (u32lo p.data), u16hi (u32lo p.data),
   u16lo (u32hi p.data), u16hi (u32hi p.data)]

/-- `impl Into<SdoPayloadData> for WithoutIndexPayload`: command byte from
cs, toggle bit and the optional `length_of_empty_bytes` (size bit plus the
length in bits 3..1), followed by the 7 data bytes. -/
def WithoutIndexPayload.intoPayloadData (p : WithoutIndexPayload) : List Nat :=
  let toggle_bit := if p.toggle then 0x10 else 0x00
  let size :=
    match p.length_of_empty_bytes with
    | none => 0x00
    | some x => 0x01 + ((x &&& 0x07) <<< 1)
  (p.cs.intoU8 + toggle_bit + size) :: (p.data.take 7 ++ List.replicate (7 - p.data.length) 0)

/-! ## CANopen frames (`canopen-lib/src/frame/mod.rs`) -/

/-- `FrameType`: the 4-bit function code of the 11-bit COB-ID. -/
inductive FrameType where
  | Nmt
  | SyncEmergency
  | Time
  | Tpdo1
  | Rpdo1
  | Tpdo2
  | Rpdo2
  | Tpdo3
  | Rpdo3
  | Tpdo4
  | Rpdo4
  | SdoTx
  | SdoRx
  | NmtErrorControl
  deriving DecidableEq, Repr

/-- `FrameType` discriminant values (`repr(u8)`). -/
def FrameType.intoU8 : FrameType → Nat
  | .Nmt => 0b0000
  | .SyncEmergency => 0b0001
  | .Time => 0b0010
  | .Tpdo1 => 0b0011
  | .Rpdo1 => 0b0100
  | .Tpdo2 => 0b0101
  | .Rpdo2 => 0b0110
  | .Tpdo3 => 0b0111
  | .Rpdo3 => 0b1000
  | .Tpdo4 => 0b1001
  | .Rpdo4 => 0b1010
  | .SdoTx => 0b1011
  | .SdoRx => 0b1100
  | .NmtErrorControl => 0b1110

/-- `FrameType::try_from` (`TryFromPrimitive`): codes `0b1101` and
`≥ 0b1111` have no variant. -/
def FrameType.tryFromU8 (n : Nat) : Option FrameType :=
  match n with
  | 0b0000 => some .Nmt
  | 0b0001 => some .SyncEmergency
  | 0b0010 => some .Time
  | 0b0011 => some .Tpdo1
  | 0b0100 => some .Rpdo1
  | 0b0101 => some .Tpdo2
  | 0b0110 => some .Rpdo2
  | 0b0111 => some .Tpdo3
  | 0b1000 => some .Rpdo3
  | 0b1001 => some .Tpdo4
  | 0b1010 => some .Rpdo4
  | 0b1011 => some .SdoTx
  | 0b1100 => some .SdoRx
  | 0b1110 => some .NmtErrorControl
  | _ => none

/-- `UnspecificPayload`: raw payload for PDO/NMT/heartbeat/sync frames. -/
structure UnspecificPayload where
  length : Nat
  data : List Nat
  deriving DecidableEq, Repr

/-- `Payload` of a typed CANopen frame. -/
inductive Payload where
  | Unspecific (p : UnspecificPayload)
  | SdoWithIndex (p : WithIndexPayload)
  | SdoWithoutIndex (p : WithoutIndexPayload)
  deriving DecidableEq, Repr

/-- `CANOpenFrame`: typed CANopen frame. -/
structure CANOpenFrame where
  node_id : Nat
  frame_type : FrameType
  is_rtr : Bool
  payload : Payload
  deriving DecidableEq, Repr

/-- `CANOpenFrame::cob_id`: `node_id + (frame_type << 7)`. -/
def CANOpenFrame.cob_id (f : CANOpenFrame) : Nat :=
  f.node_id + (f.frame_type.intoU8 <<< 7)

/-- The data bytes of the raw CAN frame produced by
`impl Into<CANFrame> for CANOpenFrame`. -/
def CANOpenFrame.wireData (f : CANOpenFrame) : List Nat :=
  match f.payload with
  | .Unspecific p => p.data.take p.length
  | .SdoWithIndex p => p.intoPayloadData
  | .SdoWithoutIndex p => p.intoPayloadData

/-- `extract_frame_type_and_node_id` from `frame/mod.rs`: reject COB-IDs
above `0x77F`, split the remaining 11 bits into a 4-bit function code and a
7-bit node id, and reject unknown function codes. -/
def extract_frame_type_and_node_id (cob_id : Nat) :
    Except CanOpenError (FrameType × Nat) :=
  if cob_id > 0x77F then .error (.InvalidCobId cob_id)
  else
    let node_id := (cob_id &&& 0x7F) >>> 0
    match FrameType.tryFromU8 ((cob_id &&& (0b1111 <<< 7)) >>> 7) with
    | some frame_type => .ok (frame_type, node_id)
    | none => .error (.InvalidCobId cob_id)

/-! ## Frame builders (`canopen-lib/src/frame/builder.rs`,
`canopen-lib/src/frame/sdo/builder.rs`) -/

/-- `SdoFrameBuilder` (node id and direction). -/
structure SdoFrameBuilder where
  node_id : Nat
  frame_type : FrameType
  deriving DecidableEq, Repr

/-- `UnspecificPayloadBuilder` for PDO frames. -/
structure UnspecificPayloadBuilder where
  node_id : Nat
  frame_type : FrameType
  is_rtr : Bool
  length : Nat
  data : List Nat
  deriving DecidableEq, Repr

/-- `CanOpenFrameBuilder::sdo_request`: SDO client → server builder
(frame type `SdoRx`), rejecting node ids above `0x7F`. -/
def CanOpenFrameBuilder.sdo_request (node_id : Nat) :
    Except CanOpenError SdoFrameBuilder :=
  if node_id > 0x7F then .error (.InvalidNodeId node_id)
  else .ok { node_id, frame_type := .SdoRx }

/-- `CanOpenFrameBuilder::sdo_response`: SDO server → client builder
(frame type `SdoTx`). -/
def CanOpenFrameBuilder.sdo_response (node_id : Nat) :
    Except CanOpenError SdoFrameBuilder :=
  if node_id > 0x7F then .error (.InvalidNodeId node_id)
  else .ok { node_id, frame_type := .SdoTx }

/-- `CanOpenFrameBuilder::pdo` (with `is_rtr` from the outer builder):
classify the COB-ID and accept only the eight PDO function codes. -/
def CanOpenFrameBuilder.pdo (is_rtr : Bool) (cob_id : Nat) :
    Except CanOpenError UnspecificPayloadBuilder := do
  let (frame_type, node_id) ← extract_frame_type_and_node_id cob_id
  match frame_type with
  | .Tpdo1 | .Tpdo2 | .Tpdo3 | .Tpdo4
  | .Rpdo1 | .Rpdo2 | .Rpdo3 | .Rpdo4 =>
      .ok { frame_type, node_id, is_rtr, length := 0, data := List.replicate 8 0 }
  | _ => .error (.InvalidCobId cob_id)

/-- `WithIndexFrameBuilder`: fluent builder state for with-index SDO
frames. -/
structure WithIndexFrameBuilder where
  node_id : Nat
  frame_type : FrameType
  command_specifier : CommandSpecifier
  size : CommandDataSize
  expedited_flag : Bool
  index : Nat
  subindex : Nat
  data : Nat
  deriving DecidableEq, Repr

/-- `WithoutIndexFrameBuilder`: stateful builder for segment frames; the
`toggle` field flips on every `build`. -/
structure WithoutIndexFrameBuilder where
  node_id : Nat
  frame_type : FrameType
  command_specifier : CommandSpecifier
  length_of_empty_bytes : Option Nat
  toggle : Bool
  data : List Nat
  deriving DecidableEq, Repr

/-- `SdoFrameBuilder::with_index`. -/
def SdoFrameBuilder.with_index (b : SdoFrameBuilder) (index subindex : Nat) :
    WithIndexFrameBuilder :=
  let command_specifier :=
    match b.frame_type with
    | .SdoRx => CommandSpecifier.Ccs .Unspecified
    | _ => CommandSpecifier.Scs .Unspecified
  { node_id := b.node_id, frame_type := b.frame_type, index, subindex,
    command_specifier, size := .NotSet, expedited_flag := false, data := 0 }

/-- `SdoFrameBuilder::without_index`: the toggle starts `true`; it gets
flipped at the first `build` call before the frame is emitted. -/
def SdoFrameBuilder.without_index (b : SdoFrameBuilder) :
    WithoutIndexFrameBuilder :=
  let command_specifier :=
    match b.frame_type with
    | .SdoRx => CommandSpecifier.Ccs .Unspecified
    | _ => CommandSpecifier.Scs .Unspecified
  { node_id := b.node_id, frame_type := b.frame_type, command_specifier,
    toggle := true, length_of_empty_bytes := none,
    data := List.replicate 7 0 }

/-- `WithIndexFrameBuilder::build`. -/
def WithIndexFrameBuilder.build (b : WithIndexFrameBuilder) : CANOpenFrame :=
  { node_id := b.node_id, frame_type := b.frame_type, is_rtr := false,
    payload := .SdoWithIndex
      { cs := b.command_specifier, size := b.size,
        expedited_flag := b.expedited_flag, index := b.index,
        subindex := b.subindex, data := b.data } }

/-- `WithIndexFrameBuilder::abort`: cs = Abort, size = NotSet, data = the
abort code's numeric value. -/
def WithIndexFrameBuilder.abort (b : WithIndexFrameBuilder)
    (abort_code : SDOAbortCode) : WithIndexFrameBuilder :=
  { b with command_specifier := .Scs .Abort, size := .NotSet,
           data := abort_code.intoU32, expedited_flag := false }

/-- `WithIndexFrameBuilder::download_one_byte` (source:
`ClientCommandSpecifier::InitiateDownload`, ccs code `0b001`). -/
def WithIndexFrameBuilder.download_one_byte (b : WithIndexFrameBuilder)
    (data : Nat) : WithIndexFrameBuilder :=
  { b with command_specifier := .Ccs .Download, size := .OneByte,
           data := data % 256 &&& 0xFF, expedited_flag := true }

/-- `WithIndexFrameBuilder::download_two_bytes`. -/
def WithIndexFrameBuilder.download_two_bytes (b : WithIndexFrameBuilder)
    (data : Nat) : WithIndexFrameBuilder :=
  { b with command_specifier := .Ccs .Download, size := .TwoBytes,
           data := data % 2 ^ 16 &&& 0xFFFF, expedited_flag := true }

/-- `WithIndexFrameBuilder::download_four_bytes`. -/
def WithIndexFrameBuilder.download_four_bytes (b : WithIndexFrameBuilder)
    (data : Nat) : WithIndexFrameBuilder :=
  { b with command_specifier := .Ccs .Download, size := .FourBytes,
           data := data % 2 ^ 32, expedited_flag := true }

/-- `WithIndexFrameBuilder::download_response` (source:
`ServerCommandSpecifier::DownloadResponse`, scs code `0b011`). -/
def WithIndexFrameBuilder.download_response (b : WithIndexFrameBuilder) :
    WithIndexFrameBuilder :=
  { b with command_specifier := .Scs .Download, size := .NotSet,
           expedited_flag := false, data := 0 }

/-- `WithIndexFrameBuilder::download`: expedited write of up to four bytes
little-endian; `none` models the panic on longer slices. -/
def WithIndexFrameBuilder.download (b : WithIndexFrameBuilder)
    (data : List Nat) : Option WithIndexFrameBuilder :=
  let b := { b with command_specifier := CommandSpecifier.Ccs .Download,
                    expedited_flag := true }
  match data with
  | [] => some { b with size := .NotSet, data := 0 }
  | [d0] => some { b with size := .OneByte, data := d0 % 256 }
  | [d0, d1] => some { b with size := .TwoBytes, data := d0 % 256 + ((d1 % 256) <<< 8) }
  | [d0, d1, d2] =>
      some { b with size := .ThreeBytes,
                    data := d0 % 256 + ((d1 % 256) <<< 8) + ((d2 % 256) <<< 16) }
  | [d0, d1, d2, d3] =>
      some { b with size := .FourBytes,
                    data := d0 % 256 + ((d1 % 256) <<< 8) + ((d2 % 256) <<< 16)
                            + ((d3 % 256) <<< 24) }
  | _ => none

/-- `WithIndexFrameBuilder::upload_request` (data field zero; the source
assigns `ServerCommandSpecifier::UploadResponse`, scs/ccs code `0b010`,
producing command byte `0x40`). -/
def WithIndexFrameBuilder.upload_request (b : WithIndexFrameBuilder) :
    WithIndexFrameBuilder :=
  { b with command_specifier := .Scs .Upload, size := .NotSet,
           expedited_flag := false, data := 0 }

/-- `WithoutIndexFrameBuilder::build`: flip the toggle first, then emit the
frame carrying the flipped value, returning the updated builder state. -/
def WithoutIndexFrameBuilder.build (b : WithoutIndexFrameBuilder) :
    CANOpenFrame × WithoutIndexFrameBuilder :=
  let b2 := { b with toggle := !b.toggle }
  ({ node_id := b2.node_id, frame_type := b2.frame_type, is_rtr := false,
     payload := .SdoWithoutIndex
       { cs := b2.command_specifier, toggle := b2.toggle,
         length_of_empty_bytes := b2.length_of_empty_bytes,
         data := b2.data } }, b2)

/-- `WithoutIndexFrameBuilder::upload_request` (segment upload request;
does not touch the toggle — that is done by `build`). -/
def WithoutIndexFrameBuilder.upload_request (b : WithoutIndexFrameBuilder) :
    WithoutIndexFrameBuilder :=
  { b with command_specifier := .Ccs .UploadSegment,
           length_of_empty_bytes := some 0,
           data := List.replicate 7 0 }

/-- `WithoutIndexFrameBuilder::upload_response`: stores up to 7 chunk bytes
zero-padded, recording `7 - len` empty bytes when the chunk is short. -/
def WithoutIndexFrameBuilder.upload_response (b : WithoutIndexFrameBuilder)
    (data : List Nat) : WithoutIndexFrameBuilder :=
  { b with command_specifier := .Scs .DownloadSegment,
           length_of_empty_bytes :=
             if data.length < 7 then some (7 - data.length) else none,
           data := data.take 7 ++ List.replicate (7 - data.length) 0 }

/-! ## Object dictionary (`canopen-lib/src/node/object.rs`,
`canopen-lib/src/node/object_dictionary.rs`) -/

/-- `SdoAccessType`: access class of an object-dictionary entry. -/
inductive SdoAccessType where
  | ReadOnly
  | WriteOnly
  | ReadWrite
  deriving DecidableEq, Repr

/-- `StoredValue`: the storage class of an entry.  `NoStorage` carries a
change-handler callback in the source; the handler is an out-of-scope
collaborator and the only handler in the sources (`default_handler`)
unconditionally succeeds, so the embedding drops the function payload and
lets the invocation succeed. -/
inductive StoredValue where
  | Const (v : ValueVariant)
  | Persistent (v : ValueVariant)
  | Variable (v : ValueVariant)
  | NoStorage
  deriving DecidableEq, Repr

/-- `CanOpenObject`: one object-dictionary entry. -/
structure CanOpenObject where
  mapped_index : Nat
  value : StoredValue
  privilege : SdoAccessType
  deriving DecidableEq, Repr

/-- `CanOpenObject::const_object`. -/
def CanOpenObject.const_object (index subindex : Nat) (value : ValueVariant) :
    CanOpenObject :=
  { mapped_index := map_index index subindex, value := .Const value,
    privilege := .ReadOnly }

/-- `impl Default for CanOpenObject` (also the `array_init` fill value of
the object-dictionary array). -/
def CanOpenObject.defaultObject : CanOpenObject :=
  CanOpenObject.const_object 0 0 (.U8 0)

/-- `CanOpenObject::variable_object`, byte-for-byte from the source: the
guard panics (`none`) whenever the discriminant of `value` differs from the
`String` discriminant — i.e. for every non-string value — and accepts
string values. -/
def CanOpenObject.variable_object (index subindex : Nat)
    (value : ValueVariant) : Option CanOpenObject :=
  if !sameDiscriminant value (.S []) then none
  else some { mapped_index := map_index index subindex,
              value := .Variable value, privilege := .ReadWrite }

/-- `CanOpenObject::persistent_object`, with the same source guard as
`variable_object`. -/
def CanOpenObject.persistent_object (index subindex : Nat)
    (value : ValueVariant) : Option CanOpenObject :=
  if !sameDiscriminant value (.S []) then none
  else some { mapped_index := map_index index subindex,
              value := .Persistent value, privilege := .ReadWrite }

/-- `CanOpenObject::nostorage_object`. -/
def CanOpenObject.nostorage_object (index subindex : Nat) : CanOpenObject :=
  { mapped_index := map_index index subindex, value := .NoStorage,
    privilege := .WriteOnly }

/-- `CanOpenObject::set_value`: returns whether the stored value was
modified, together with the (possibly updated) object.  The mutex always
locks in this single-threaded model; the `NoStorage` handler succeeds (see
`StoredValue`). -/
def CanOpenObject.set_value (o : CanOpenObject) (value : ValueVariant) :
    Except CanOpenError (Bool × CanOpenObject) :=
  match o.value with
  | .NoStorage => .ok (true, o)
  | .Const _ =>.error .CannotWriteToConstStorage
  | .Variable x =>
      if !sameDiscriminant value x then
        .error (.InvalidNumberType [0x74, 0x6F, 0x64, 0x6F])
      else if !valueVariantEq x value then
        .ok (true, { o with value := .Variable value })
      else .ok (false, o)
  | .Persistent x =>
      if !sameDiscriminant value x then
        .error (.InvalidNumberType [0x74, 0x6F, 0x64, 0x6F])
      else if !valueVariantEq x value then
        .ok (true, { o with value := .Persistent value })
      else .ok (false, o)

/-- `CanOpenObject::get_value`. -/
def CanOpenObject.get_value (o : CanOpenObject) :
    Except CanOpenError ValueVariant :=
  match o.value with
  | .Const v => .ok v
  | .NoStorage => .error .ReadAccessImpossible
  | .Variable v => .ok v
  | .Persistent v => .ok v

/-- `MAX_NUMBER_OF_OBJECTS` from `node/object_dictionary.rs`. -/
def MAX_NUMBER_OF_OBJECTS : Nat := 256

/-- `ObjectDictionaryBuilder` state: the first `number_of_objects` slots of
the source's fixed array, as a list. -/
structure ObjectDictionaryBuilder where
  objects : List CanOpenObject
  deriving DecidableEq, Repr

/-- `ObjectDictionaryBuilder::new`: device type at `0x1000,0x01`, error
register at `0x1001,0x01` and vendor id at `0x1018,0x01`. -/
def ObjectDictionaryBuilder.new (device_type vendor_id : Nat) :
    ObjectDictionaryBuilder :=
  { objects :=
      [CanOpenObject.const_object 0x1000 0x01 (.U32 device_type),
       CanOpenObject.const_object 0x1001 0x01 (.U8 0),
       CanOpenObject.const_object 0x1018 0x01 (.U32 vendor_id)] }

/-- The scan-shift-insert loop of `custom_entry`: walk the occupied slots
in order; `none` models the `panic!("Object already registered")` when a
slot with the same mapped index (the source's `PartialEq` on
`CanOpenObject`) is met; stop at the first slot with a greater mapped index
(the source's `PartialOrd`), shift the tail right and insert there. -/
def insertScan (o : CanOpenObject) :
    List CanOpenObject → Option (List CanOpenObject)
  | [] => some [o]
  | x :: xs =>
      if x.mapped_index == o.mapped_index then none
      else if x.mapped_index > o.mapped_index then some (o :: x :: xs)
      else (insertScan o xs).map (x :: ·)

/-- `ObjectDictionaryBuilder::custom_entry`: `none` models the
`panic!("Object dictionary too small.")` when all
`MAX_NUMBER_OF_OBJECTS` slots are occupied, and the duplicate panic inside
the scan. -/
def ObjectDictionaryBuilder.custom_entry (b : ObjectDictionaryBuilder)
    (o : CanOpenObject) : Option ObjectDictionaryBuilder :=
  if b.objects.length ≥ MAX_NUMBER_OF_OBJECTS then none
  else (insertScan o b.objects).map ({ objects := · })

/-- `ObjectDictionary`: sealed dictionary produced by
`ObjectDictionaryBuilder::build`. -/
structure ObjectDictionary where
  objects : List CanOpenObject
  node_id : Nat
  deriving DecidableEq, Repr

/-- `ObjectDictionaryBuilder::build`. -/
def ObjectDictionaryBuilder.build (b : ObjectDictionaryBuilder)
    (node_id : Nat) : ObjectDictionary :=
  { objects := b.objects, node_id }

/-- The binary-search loop of `ObjectDictionary::array_index` over the
interval `[min, max)`.  Slots are read with the array's fill value
(`defaultObject`) as default, exactly like the source's fixed array; the
`max ≤ min` guard folds the source's pre-loop `max == min` check into the
recursion (it never fires on recursive calls).  `fuel` makes the
shrinking-interval recursion structural; every caller passes at least
`max - min`, which the interval strictly dominates, so the fuel never
runs out (the `fuel = 0` arm is unreachable). -/
def array_index_go (objs : List CanOpenObject) (mapped index subindex : Nat) :
    Nat → Nat → Nat → Except CanOpenError Nat
  | 0, _, _ => .error (.ObjectDoesNotExist index subindex)
  | fuel + 1, min, max =>
    if max ≤ min then .error (.ObjectDoesNotExist index subindex)
    else
      let center := (max - min) / 2 + min
      if (objs.getD center CanOpenObject.defaultObject).mapped_index == mapped then
        .ok center
      else if max == min + 1 then .error (.ObjectDoesNotExist index subindex)
      else if (objs.getD center CanOpenObject.defaultObject).mapped_index > mapped then
        array_index_go objs mapped index subindex fuel min center
      else
        array_index_go objs mapped index subindex fuel center max

/-- `ObjectDictionary::array_index`: binary search for the slot holding
`map_index index subindex`. -/
def ObjectDictionary.array_index (od : ObjectDictionary)
    (index subindex : Nat) : Except CanOpenError Nat :=
  array_index_go od.objects (map_index index subindex) index subindex
    od.objects.length 0 od.objects.length

/-- Recorded invocation of an object-dictionary change hook
(`update_pdo` / `persist_value` are `todo!()` collaborator stubs in the
source; the embedding records the calls and lets them succeed). -/
inductive HookCall where
  | updatePdo (index subindex : Nat)
  | persistValue (index subindex : Nat)
  deriving DecidableEq, Repr

/-- `ObjectDictionary::set_object_value`: dispatch on the storage class,
update through `set_value`, and fire the change hooks only when `set_value`
reports a modification. -/
def ObjectDictionary.set_object_value (od : ObjectDictionary)
    (index subindex : Nat) (value : ValueVariant) :
    Except CanOpenError (ObjectDictionary × List HookCall) := do
  let array_index ← od.array_index index subindex
  let obj := od.objects.getD array_index CanOpenObject.defaultObject
  match obj.value with
  | .NoStorage => do
      let _ ← obj.set_value value
      .ok (od, [])
  | .Const _ => do
      let _ ← obj.set_value value
      .ok (od, [])
  | .Variable _ => do
      let (changed, obj2) ← obj.set_value value
      if changed then
        .ok ({ od with objects := od.objects.set array_index obj2 },
             [.updatePdo index subindex])
      else .ok ({ od with objects := od.objects.set array_index obj2 }, [])
  | .Persistent _ => do
      let (changed, obj2) ← obj.set_value value
      if changed then
        .ok ({ od with objects := od.objects.set array_index obj2 },
             [.updatePdo index subindex, .persistValue index subindex])
      else .ok ({ od with objects := od.objects.set array_index obj2 }, [])

/-- `ObjectDictionary::download_expedited`: SDO-server write wrapper,
rejecting read-only entries with `WritingForbidden`. -/
def ObjectDictionary.download_expedited (od : ObjectDictionary)
    (index subindex : Nat) (value : ValueVariant) :
    Except CanOpenError (ObjectDictionary × List HookCall) := do
  let array_index ← od.array_index index subindex
  match (od.objects.getD array_index CanOpenObject.defaultObject).privilege with
  | .ReadOnly => .error .WritingForbidden
  | .WriteOnly | .ReadWrite => od.set_object_value index subindex value

/-- `ObjectDictionary::upload`: SDO-server read wrapper, rejecting
write-only entries with `ReadAccessImpossible`. -/
def ObjectDictionary.upload (od : ObjectDictionary) (index subindex : Nat) :
    Except CanOpenError ValueVariant := do
  let array_index ← od.array_index index subindex
  match (od.objects.getD array_index CanOpenObject.defaultObject).privilege with
  | .WriteOnly => .error .ReadAccessImpossible
  | .ReadOnly | .ReadWrite =>
      (od.objects.getD array_index CanOpenObject.defaultObject).get_value

/-- `ObjectDictionary::get_object_value`. -/
def ObjectDictionary.get_object_value (od : ObjectDictionary)
    (index subindex : Nat) : Except CanOpenError ValueVariant := do
  let array_index ← od.array_index index subindex
  (od.objects.getD array_index CanOpenObject.defaultObject).get_value

/-! ## SDO server (`canopen-lib/src/node/sdo_server.rs`) -/

/-- Round-to-nearest-even conversion of a `u32` bit pattern to the IEEE-754
single-precision bit pattern of its value: the Rust cast
`payload.data as f32` in the server's `F32` arm. -/
def natToF32Bits (n : Nat) : Nat :=
  if n == 0 then 0
  else
    let k := Nat.log2 n
    if k ≤ 23 then ((127 + k) <<< 23) + ((n - (1 <<< k)) <<< (23 - k))
    else
      let shift := k - 23
      let q := n >>> shift
      let r := n % (1 <<< shift)
      let half := 1 <<< (shift - 1)
      let q2 := if r > half || (r == half && q % 2 == 1) then q + 1 else q
      if q2 == 1 <<< 24 then (127 + k + 1) <<< 23
      else ((127 + k) <<< 23) + (q2 - (1 <<< 23))

/-- `cast_indexed_payload_to_value_variant` from `sdo_server.rs`: check the
payload's declared size against the stored value's variant and build the
value to store; `none` models `Err(IndexedPayloadError)`. -/
def cast_indexed_payload_to_value_variant (object_value : ValueVariant)
    (payload : WithIndexPayload) : Option ValueVariant :=
  match object_value with
  | .F32 _ =>
      if payload.size == .FourBytes then some (.F32 (natToF32Bits (payload.data % 2 ^ 32)))
      else none
  | .U32 _ =>
      if payload.size == .FourBytes then some (.U32 payload.data) else none
  | .U16 _ =>
      if payload.size == .TwoBytes then some (.U16 (payload.data % 2 ^ 16)) else none
  | .U8 _ =>
      if payload.size == .OneByte then some (.U8 (payload.data % 256)) else none
  | .I32 _ =>
      if payload.size == .FourBytes then some (.I32 payload.data) else none
  | .I16 _ =>
      if payload.size == .TwoBytes then some (.I16 (payload.data % 2 ^ 16)) else none
  | .I8 _ =>
      if payload.size == .OneByte then some (.I8 (payload.data % 256)) else none
  | .S _ => none

/-- The server's abort response: `sdo_response(node).with_index(i,s)
.abort(code).build()`.  The outer `Option` models the `.unwrap()` on the
node-id check — unreachable, `SdoServer::new` panics on node ids above
`0x7F`. -/
def abortResponse (node index subindex : Nat) (code : SDOAbortCode) :
    Option CANOpenFrame :=
  (CanOpenFrameBuilder.sdo_response node).toOption.map
    (fun b => ((b.with_index index subindex).abort code).build)

/-- `SdoServer::process_segmented`: segmented upload is still a todo in
the source — it unconditionally answers with an `ObjectDoesNotExist`
abort. -/
def process_segmented (node index subindex : Nat) (_value : List Nat) :
    Option CANOpenFrame :=
  abortResponse node index subindex .ObjectDoesNotExist

/-- `SdoServer::send_expedited_object_value`: serialise the value through a
4-byte buffer and answer with the builder's `download` frame. -/
def send_expedited_object_value (node index subindex : Nat)
    (value : ValueVariant) : Option CANOpenFrame := do
  let data ← to_little_endian_buffer value 4
  let b ← (CanOpenFrameBuilder.sdo_response node).toOption
  let wb ← (b.with_index index subindex).download data
  some wb.build

/-- `SdoServer::process_frame_with_index`: dispatch an incoming with-index
SDO request against the object dictionary and build the response frame;
`none` for frames without a with-index payload (and for the unreachable
builder panics).  The object-dictionary state change of a successful write
is not returned — the claims concern the emitted frame. -/
def process_frame_with_index (node : Nat) (od : ObjectDictionary)
    (frame : CANOpenFrame) : Option CANOpenFrame :=
  match frame.payload with
  | .SdoWithIndex payload =>
      let index := payload.index
      let subindex := payload.subindex
      match payload.cs with
      | .Ccs .Download =>
          match od.get_object_value index subindex with
          | .ok object =>
              match cast_indexed_payload_to_value_variant object payload with
              | some value =>
                  match od.download_expedited index subindex value with
                  | .ok _ =>
                      (CanOpenFrameBuilder.sdo_response node).toOption.map
                        (fun b => (b.with_index index subindex).download_response.build)
                  | .error e =>
                      let abort_code :=
                        match e with
                        | .CannotWriteToConstStorage | .WritingForbidden =>
                            SDOAbortCode.WriteReadOnlyError
                        | _ => SDOAbortCode.DictionaryError
                      abortResponse node index subindex abort_code
              | none => abortResponse node index subindex .WrongLength
          | .error _ => abortResponse node index subindex .ObjectDoesNotExist
      | .Ccs .UploadSegment => abortResponse node index subindex .UnsupportedAccess
      | .Ccs .Upload =>
          match od.upload index subindex with
          | .ok object_value =>
              match object_value with
              | .S v => process_segmented node index subindex v
              | _ => send_expedited_object_value node index subindex object_value
          | .error e =>
              let abort_code :=
                match e with
                | .ObjectDoesNotExist _ _ => SDOAbortCode.ObjectDoesNotExist
                | .ReadAccessImpossible => SDOAbortCode.WriteReadOnlyError
                | _ => SDOAbortCode.DictionaryError
              abortResponse node index subindex abort_code
      | .Ccs .BlockDownload => abortResponse node index subindex .UnsupportedAccess
      | .Ccs .Unspecified | .Ccs .BlockUpload | .Ccs .DownloadSegment =>
          abortResponse node index subindex .UnsupportedAccess
      | .Scs _ => abortResponse node index subindex .GeneralError
  | _ => none

/-- `SdoServer::process_frame`'s filter step: only frames addressed to this
node with frame type `SdoRx` are dispatched (`process_frame_without_index`
is a no-op in the source). -/
def process_frame (node : Nat) (od : ObjectDictionary)
    (frame : CANOpenFrame) : Option CANOpenFrame :=
  if frame.node_id == node && frame.frame_type == FrameType.SdoRx then
    process_frame_with_index node od frame
  else none

/-! ## SDO client (`canopen-lib/src/sdo_client.rs`)

The socket is modelled by the list of inbound typed frames; the client's
send side does not influence the received list, and exhausting the list
models the response that never arrives (the 500 ms timeout fires,
`SdoProtocolTimedOut`). -/

/-- The expedited copy loop of `read_indexed`:
`for (i, item) in data.iter_mut().enumerate() { if i < len { *item = (payload.data >> (8*i) & 0xff) as u8 } }`.
Iterates over the whole destination, overwriting only the first `len`
positions. -/
def write_expedited (data len i : Nat) : List Nat → List Nat
  | [] => []
  | b :: rest =>
      (if i < len then (data >>> (8 * i)) &&& 0xFF else b)
        :: write_expedited data len (i + 1) rest

/-- `SdoClient::read_indexed`: send an upload request (not modelled — it
does not affect the inbound list) and scan inbound frames for the first
with-index `SdoTx` frame matching `(index, subindex)`; abort responses
surface the (raw `u32`) abort code, expedited responses copy the size-field
number of bytes little-endian into the destination and return that size,
segmented initiations return the announced total after checking it fits the
destination.  Returns the result together with the unconsumed frames. -/
def read_indexed (node index subindex : Nat) (frames : List CANOpenFrame)
    (dst : List Nat) :
    Except CanOpenError (Nat × List Nat × List CANOpenFrame) :=
  match frames with
  | [] => .error .SdoProtocolTimedOut
  | f :: rest =>
      if f.node_id == node && f.frame_type == FrameType.SdoTx then
        match f.payload with
        | .SdoWithIndex payload =>
            if payload.index == index && payload.subindex == subindex then
              if payload.cs == .Scs .Abort then
                .error (.SdoAbortCodeError payload.data)
              else if payload.expedited_flag then
                let len := extract_length payload.size
                .ok (len, write_expedited payload.data len 0 dst, rest)
              else
                let len := payload.data
                if len > dst.length then
                  .error (.StringIsTooLong dst.length len)
                else .ok (len, dst, rest)
            else read_indexed node index subindex rest dst
        | _ => read_indexed node index subindex rest dst
      else read_indexed node index subindex rest dst

/-- The segment copy of `read_segment`: `data[i] = payload.data[i]` for
`i in 0..len` on the slice `data[offset..]`; `none` models the
out-of-bounds panic when the remaining destination is shorter than the
segment. -/
def segCopy (seg : List Nat) (len offset : Nat) (dst : List Nat) :
    Option (List Nat) :=
  if offset + len > dst.length then none
  else some (dst.take offset
    ++ (seg.take len ++ List.replicate (len - seg.length) 0)
    ++ dst.drop (offset + len))

/-- The segmented while-loop of `read_object` fused with the frame scan of
`read_segment` (consecutive `read_segment` calls scan one and the same
inbound stream): skip non-matching frames, surface aborts, copy each
without-index segment (`7 - length_of_empty_bytes` bytes) at the current
offset, and stop once `offset ≥ len`.  A matching with-index non-abort
frame ends one `read_segment` round with zero bytes, continuing the outer
loop. -/
def read_segments (node index subindex : Nat) (frames : List CANOpenFrame)
    (dst : List Nat) (offset len : Nat) :
    Option (Except CanOpenError (List Nat)) :=
  if offset ≥ len then some (.ok dst)
  else
    match frames with
    | [] => some (.error .SdoProtocolTimedOut)
    | f :: rest =>
        if f.node_id == node && f.frame_type == FrameType.SdoTx then
          match f.payload with
          | .SdoWithIndex payload =>
              if payload.index == index && payload.subindex == subindex then
                if payload.cs == .Scs .Abort then
                  some (.error (.SdoAbortCodeError payload.data))
                else read_segments node index subindex rest dst offset len
              else read_segments node index subindex rest dst offset len
          | .SdoWithoutIndex payload =>
              let seglen := 7 -
                (match payload.length_of_empty_bytes with
                 | some x => x
                 | none => 0)
              match segCopy payload.data seglen offset dst with
              | none => none
              | some dst2 =>
                  read_segments node index subindex rest dst2 (offset + seglen) len
          | .Unspecific _ => read_segments node index subindex rest dst offset len
        else read_segments node index subindex rest dst offset len

/-- `SdoClient::read_object`: initiate with `read_indexed`; lengths above 4
continue with the segmented loop.  The returned count is the `len` from
`read_indexed` either way. -/
def read_object (node index subindex : Nat) (frames : List CANOpenFrame)
    (dst : List Nat) : Option (Except CanOpenError (Nat × List Nat)) :=
  match read_indexed node index subindex frames dst with
  | .error e => some (.error e)
  | .ok (len, dst1, rest) =>
      if len > 4 then
        match read_segments node index subindex rest dst1 0 len with
        | none => none
        | some (.error e) => some (.error e)
        | some (.ok dst2) => some (.ok (len, dst2))
      else some (.ok (len, dst1))

/-! ## CLI value parsing (`cot/src/main.rs`) -/

/-- `ValueType` from `cot/src/main.rs`. -/
inductive ValueType where
  | None
  | U8
  | U16
  | U32
  | I8
  | I16
  | I32
  | F32
  | STR
  deriving DecidableEq, Repr

/-- Continuation-byte test for UTF-8 validation. -/
def utf8Cont (b : Nat) : Bool := 0x80 ≤ b && b ≤ 0xBF

/-- Validity of a byte sequence as UTF-8 (the check behind Rust's
`std::str::from_utf8`), including the surrogate and overlong-encoding
restrictions. -/
def utf8Valid : List Nat → Bool
  | [] => true
  | b :: rest =>
      if b ≤ 0x7F then utf8Valid rest
      else if 0xC2 ≤ b && b ≤ 0xDF then
        match rest with
        | c :: r => utf8Cont c && utf8Valid r
        | [] => false
      else if b == 0xE0 then
        match rest with
        | c1 :: c2 :: r => (0xA0 ≤ c1 && c1 ≤ 0xBF) && utf8Cont c2 && utf8Valid r
        | _ => false
      else if b == 0xED then
        match rest with
        | c1 :: c2 :: r => (0x80 ≤ c1 && c1 ≤ 0x9F) && utf8Cont c2 && utf8Valid r
        | _ => false
      else if (0xE1 ≤ b && b ≤ 0xEC) || b == 0xEE || b == 0xEF then
        match rest with
        | c1 :: c2 :: r => utf8Cont c1 && utf8Cont c2 && utf8Valid r
        | _ => false
      else if b == 0xF0 then
        match rest with
        | c1 :: c2 :: c3 :: r =>
            (0x90 ≤ c1 && c1 ≤ 0xBF) && utf8Cont c2 && utf8Cont c3 && utf8Valid r
        | _ => false
      else if 0xF1 ≤ b && b ≤ 0xF3 then
        match rest with
        | c1 :: c2 :: c3 :: r =>
            utf8Cont c1 && utf8Cont c2 && utf8Cont c3 && utf8Valid r
        | _ => false
      else if b == 0xF4 then
        match rest with
        | c1 :: c2 :: c3 :: r =>
            (0x80 ≤ c1 && c1 ≤ 0x8F) && utf8Cont c2 && utf8Cont c3 && utf8Valid r
        | _ => false
      else false

/-- The UTF-8 bytes of the literal `"u8"` (the error payload every numeric
arm of `parse_buffer_as` produces, including the non-`u8` ones). -/
def u8TypeName : List Nat := [0x75, 0x38]

/-- `parse_buffer_as` from `cot/src/main.rs`, byte-for-byte: each numeric
arm returns `InvalidNumberType` when `data.len()` EQUALS the width of the
declared tag, and otherwise reads the leading bytes little-endian —
panicking (`none`) when the buffer is even shorter. -/
def parse_buffer_as (value_type : ValueType) (data : List Nat) :
    Option (Except CanOpenError ValueVariant) :=
  match value_type with
  | .U8 =>
      if data.length == 1 then some (.error (.InvalidNumberType u8TypeName))
      else
        match data with
        | d0 :: _ => some (.ok (.U8 (d0 % 256)))
        | [] => none
  | .U16 =>
      if data.length == 2 then some (.error (.InvalidNumberType u8TypeName))
      else
        match data with
        | d0 :: d1 :: _ => some (.ok (.U16 (d0 % 256 + ((d1 % 256) <<< 8))))
        | _ => none
  | .U32 =>
      if data.length == 4 then some (.error (.InvalidNumberType u8TypeName))
      else
        match data with
        | d0 :: d1 :: d2 :: d3 :: _ =>
            some (.ok (.U32 (d0 % 256 + ((d1 % 256) <<< 8) + ((d2 % 256) <<< 16)
              + ((d3 % 256) <<< 24))))
        | _ => none
  | .I8 =>
      if data.length == 1 then some (.error (.InvalidNumberType u8TypeName))
      else
        match data with
        | d0 :: _ => some (.ok (.I8 (d0 % 256)))
        | [] => none
  | .I16 =>
      if data.length == 2 then some (.error (.InvalidNumberType u8TypeName))
      else
        match data with
        | d0 :: d1 :: _ => some (.ok (.I16 (d0 % 256 + ((d1 % 256) <<< 8))))
        | _ => none
  | .I32 =>
      if data.length == 4 then some (.error (.InvalidNumberType u8TypeName))
      else
        match data with
        | d0 :: d1 :: d2 :: d3 :: _ =>
            some (.ok (.I32 (d0 % 256 + ((d1 % 256) <<< 8) + ((d2 % 256) <<< 16)
              + ((d3 % 256) <<< 24))))
        | _ => none
  | .F32 =>
      if data.length == 4 then some (.error (.InvalidNumberType u8TypeName))
      else
        match data with
        | d0 :: d1 :: d2 :: d3 :: _ =>
            some (.ok (.F32 (d0 % 256 + ((d1 % 256) <<< 8) + ((d2 % 256) <<< 16)
              + ((d3 % 256) <<< 24))))
        | _ => none
  | .STR =>
      if utf8Valid data then some (.ok (.S data))
      else some (.error .Formatting)
  | .None =>
      some (.error (.InvalidNumberType [0x4E, 0x6F, 0x6E, 0x65]))

/-! ## Auxiliary definitions for the theorems -/

/-- The toggle bits of the frames emitted by `n` consecutive `build` calls
on a without-index builder. -/
def buildToggles : Nat → WithoutIndexFrameBuilder → List Bool
  | 0, _ => []
  | n + 1, b =>
      let r := b.build
      r.2.toggle :: buildToggles n r.2

/-- Alternating boolean sequence: `n` bits, each the negation of its
predecessor, starting from the negation of `t`. -/
def altFrom (t : Bool) : Nat → List Bool
  | 0 => []
  | n + 1 => (!t) :: altFrom (!t) n

/-- Spec-side definition (§4.C toggle discipline): the `i`-th segment
emitted after initiation carries toggle `false, true, false, ...`, i.e.
bit `i` is set exactly for odd `i`. -/
def specToggleBits (n : Nat) : List Bool :=
  (List.range n).map (fun i => decide (i % 2 = 1))

/-- A full object-dictionary builder: all `MAX_NUMBER_OF_OBJECTS` slots
occupied, with strictly ascending mapped indices `0, 1, ..., 255`. -/
def fullBuilder : ObjectDictionaryBuilder :=
  { objects := (List.range MAX_NUMBER_OF_OBJECTS).map
      (fun k => { mapped_index := k, value := .Const (.U8 0),
                  privilege := .ReadOnly }) }

/-- An entry whose mapped index (`300`) occurs nowhere in `fullBuilder`. -/
def freshObject300 : CanOpenObject :=
  { mapped_index := 300, value := .Const (.U8 0), privilege := .ReadOnly }

/-- The minimal object dictionary of scenario S-4: standard builder with
device type `0xFFFF0000`, vendor id `0`, sealed for node 1.  Its entry
`0x1000,0x01` is a read-only `Const`-stored `U32`. -/
def s4Dictionary : ObjectDictionary :=
  (ObjectDictionaryBuilder.new 0xFFFF0000 0).build 1

/-- The S-4 response frame: the abort `0x581#[0x80, 0x00, 0x10, 0x01,
0x02, 0x00, 0x01, 0x06]` (abort code `0x06010002`, `WriteReadOnlyError`,
little-endian) for index `0x1000`, subindex `0x01` of node 1. -/
def s4AbortFrame : CANOpenFrame :=
  { node_id := 1, frame_type := .SdoTx, is_rtr := false,
    payload := .SdoWithIndex
      { cs := .Scs .Abort, size := .NotSet, expedited_flag := false,
        index := 0x1000, subindex := 0x01, data := 0x06010002 } }

/-! ## Claim theorems -/

/-- C1: the abort-code round trip `u32 → SDOAbortCode → u32` fails on the
code as written: the claim (and the spec's wire table, and the code's own
`From<u32>` impl) give `ReadWriteOnlyError ↔ 0x06010001`, but the source's
`Into<u32>` maps `ReadWriteOnlyError` to `0x06010000` — the
`UnsupportedAccess` constant — so converting `ReadWriteOnlyError` to `u32`
and back yields `UnsupportedAccess`, not the original variant.  This
theorem evaluates the embedded conversions at the failing input. -/
theorem c1_abort_code_round_trip_fails_at_ReadWriteOnlyError :
    SDOAbortCode.intoU32 .ReadWriteOnlyError = 0x06010000 ∧
    SDOAbortCode.intoU32 .ReadWriteOnlyError ≠ 0x06010001 ∧
    SDOAbortCode.fromU32 (SDOAbortCode.intoU32 .ReadWriteOnlyError)
      = .UnsupportedAccess ∧
    SDOAbortCode.fromU32 0x06010001 = .ReadWriteOnlyError := by
  decide

/-- C2: the little-endian round trip fails on the code as written: every
numeric arm of `parse_buffer_as` rejects a buffer whose length EQUALS the
width declared by the tag (the check is inverted), so parsing the
serialisation of `U8 0x2A` (one byte) yields `InvalidNumberType`, while a
buffer of the wrong length (two bytes) parses fine.  This theorem evaluates
the embedded functions at the failing input. -/
theorem c2_le_round_trip_fails_at_exact_width :
    to_little_endian_buffer (.U8 0x2A) 8 = some [0x2A] ∧
    parse_buffer_as .U8 [0x2A] = some (.error (.InvalidNumberType u8TypeName)) ∧
    parse_buffer_as .U8 [0x2A, 0x00] = some (.ok (.U8 0x2A)) ∧
    to_little_endian_buffer (.U16 0x1122) 8 = some [0x22, 0x11] ∧
    parse_buffer_as .U16 [0x22, 0x11]
      = some (.error (.InvalidNumberType u8TypeName)) ∧
    to_little_endian_buffer (.U32 0x01020304) 8 = some [0x04, 0x03, 0x02, 0x01] ∧
    parse_buffer_as .U32 [0x04, 0x03, 0x02, 0x01]
      = some (.error (.InvalidNumberType u8TypeName)) := by
  exact ⟨rfl, rfl, rfl, rfl, rfl, rfl, rfl⟩

/-- C3: the string guard of the mutable-object constructors is inverted in
the code as written: `variable_object` / `persistent_object` panic
(`none`) for every NON-string value — here `U8 0` — and succeed exactly
for string-typed values, the opposite of the claim (and of the source's
own panic message "Only constant storage class is supported for string
typed objects").  This theorem evaluates the constructors at the failing
input. -/
theorem c3_variable_object_rejects_numeric_values :
    CanOpenObject.variable_object 0x2000 0x01 (.U8 0) = none ∧
    CanOpenObject.persistent_object 0x2000 0x01 (.U8 0) = none ∧
    CanOpenObject.variable_object 0x2000 0x01 (.U32 0) = none ∧
    (CanOpenObject.variable_object 0x2000 0x01 (.S [0x41])).isSome = true ∧
    (CanOpenObject.persistent_object 0x2000 0x01 (.S [0x41])).isSome = true := by
  decide

/-- C9: expedited SDO download wire format.  For node `0x01`, index
`0x1122`, subindex `0x33`: `download_one_byte(0x44)` builds CAN id `0x601`
with data `[0x2F, 0x22, 0x11, 0x33, 0x44, 0x00, 0x00, 0x00]`, and
`download_four_bytes(0x77665544)` builds data
`[0x23, 0x22, 0x11, 0x33, 0x44, 0x55, 0x66, 0x77]`. -/
theorem c9_expedited_download_wire_bytes :
    ((CanOpenFrameBuilder.sdo_request 0x01).map fun b =>
        let f := ((b.with_index 0x1122 0x33).download_one_byte 0x44).build
        (f.cob_id, f.wireData))
      = .ok (0x601, [0x2F, 0x22, 0x11, 0x33, 0x44, 0x00, 0x00, 0x00]) ∧
    ((CanOpenFrameBuilder.sdo_request 0x01).map fun b =>
        let f := ((b.with_index 0x1122 0x33).download_four_bytes 0x77665544).build
        (f.cob_id, f.wireData))
      = .ok (0x601, [0x23, 0x22, 0x11, 0x33, 0x44, 0x55, 0x66, 0x77]) := by
  exact ⟨rfl, rfl⟩

theorem buildToggles_eq_altFrom :
    ∀ (n : Nat) (b : WithoutIndexFrameBuilder),
      buildToggles n b = altFrom b.toggle n := by
  intro n
  induction n with
  | zero => intro b; rfl
  | succ n ih =>
      intro b
      simp [buildToggles, WithoutIndexFrameBuilder.build, altFrom, ih]

theorem altFrom_eq_range_map :
    ∀ (n : Nat) (t : Bool),
      altFrom t n
        = (List.range n).map (fun i => Bool.xor (decide (i % 2 = 0)) t) := by
  intro n
  induction n with
  | zero => intro t; rfl
  | succ n ih =>
      intro t
      rw [List.range_succ_eq_map, List.map_cons, List.map_map, altFrom, ih (!t)]
      refine congrArg₂ List.cons ?_ (List.map_congr_left ?_)
      · simp
      · intro i _
        rcases Nat.mod_two_eq_zero_or_one i with h | h <;>
          simp [Function.comp, h, Nat.succ_mod_two_eq_zero_iff,
            Nat.succ_mod_two_eq_one_iff]

theorem altFrom_true_eq_specToggleBits (n : Nat) :
    altFrom true n = specToggleBits n := by
  rw [altFrom_eq_range_map]
  unfold specToggleBits
  apply List.map_congr_left
  intro i _
  rcases Nat.mod_two_eq_zero_or_one i with h | h <;> simp [h]

/-- C7: toggle discipline of the segment-frame builder.  `without_index`
initialises the internal toggle to `true`; every `build` first flips the
stored toggle and emits a frame carrying the flipped value; consequently
the toggle bits of `n` consecutive builds on a fresh builder are
`false, true, false, ...` (bit `i` set exactly for odd `i`). -/
theorem c7_segment_builder_toggle_discipline :
    (∀ sb : SdoFrameBuilder, sb.without_index.toggle = true) ∧
    (∀ b : WithoutIndexFrameBuilder,
        b.build.2.toggle = !b.toggle ∧
        b.build.1.payload = .SdoWithoutIndex
          { cs := b.command_specifier, toggle := !b.toggle,
            length_of_empty_bytes := b.length_of_empty_bytes,
            data := b.data }) ∧
    (∀ (sb : SdoFrameBuilder) (n : Nat),
        buildToggles n sb.without_index = specToggleBits n) := by
  refine ⟨fun sb => rfl, fun b => ⟨rfl, rfl⟩, fun sb n => ?_⟩
  rw [buildToggles_eq_altFrom]
  have h : sb.without_index.toggle = true := rfl
  rw [h, altFrom_true_eq_specToggleBits]

theorem and_shiftLeft_shiftRight (x y k : Nat) :
    (x &&& (y <<< k)) >>> k = (x >>> k) &&& y := by
  apply Nat.eq_of_testBit_eq
  intro i
  simp [Nat.testBit_shiftRight, Nat.testBit_and, Nat.testBit_shiftLeft,
    Nat.add_sub_cancel_left]

theorem extract_eq_of_le (c : Nat) (h : c ≤ 0x77F) :
    extract_frame_type_and_node_id c =
      match FrameType.tryFromU8 (c / 128) with
      | some ft => .ok (ft, c % 128)
      | none => .error (.InvalidCobId c) := by
  have h1 : (c &&& (0b1111 <<< 7)) >>> 7 = c / 128 := by
    rw [and_shiftLeft_shiftRight, Nat.shiftRight_eq_div_pow]
    have h15 : (0b1111 : Nat) = 2 ^ 4 - 1 := by norm_num
    rw [h15, Nat.and_pow_two_sub_one_eq_mod]
    exact Nat.mod_eq_of_lt (by omega)
  have h2 : (c &&& 0x7F) >>> 0 = c % 128 := by
    have h127 : (0x7F : Nat) = 2 ^ 7 - 1 := by norm_num
    rw [Nat.shiftRight_zero, h127, Nat.and_pow_two_sub_one_eq_mod]
  unfold extract_frame_type_and_node_id
  rw [if_neg (by omega)]
  simp only [h1, h2]

theorem pdo_characterization_le (c : Nat) (h : c ≤ 0x77F) (rtr : Bool) :
    ((CanOpenFrameBuilder.pdo rtr c).isOk = true
        ↔ 0x180 ≤ c ∧ c ≤ 0x57F) ∧
    (¬(0x180 ≤ c ∧ c ≤ 0x57F) →
      CanOpenFrameBuilder.pdo rtr c = .error (.InvalidCobId c)) := by
  have hex := extract_eq_of_le c h
  have hq : c / 128 < 15 := by omega
  set q := c / 128 with hqdef
  interval_cases q <;>
    simp only [FrameType.tryFromU8] at hex <;>
    first
      | (have hpdo : CanOpenFrameBuilder.pdo rtr c = .error (.InvalidCobId c) := by
           unfold CanOpenFrameBuilder.pdo
           rw [hex]
           rfl
         exact ⟨⟨fun habs => by
             rw [hpdo] at habs
             simp [Except.isOk, Except.toBool] at habs,
           fun hr => by omega⟩, fun _ => hpdo⟩)
      | (refine ⟨⟨fun _ => by omega, fun _ => ?_⟩,
           fun hn => absurd ⟨by omega, by omega⟩ hn⟩
         unfold CanOpenFrameBuilder.pdo
         rw [hex]
         rfl)

/-- C4 (corrected): the PDO frame builder accepts exactly the COB-IDs
`0x180..=0x57F` — the eight PDO function codes `Tpdo1..Rpdo4` — not
`0x180..=0x5FF` as claimed; everything outside that range (including
`0x17F`, `0x580` and `0x600`) yields `InvalidCobId`. -/
theorem c4_pdo_builder_accepts_exactly_pdo_function_codes :
    ∀ (rtr : Bool) (cob_id : Nat),
      ((CanOpenFrameBuilder.pdo rtr cob_id).isOk = true
          ↔ 0x180 ≤ cob_id ∧ cob_id ≤ 0x57F) ∧
      (¬(0x180 ≤ cob_id ∧ cob_id ≤ 0x57F) →
        CanOpenFrameBuilder.pdo rtr cob_id
          = .error (.InvalidCobId cob_id)) := by
  intro rtr c
  by_cases h : c ≤ 0x77F
  · exact pdo_characterization_le c h rtr
  · have hgt : c > 0x77F := by omega
    have hpdo : CanOpenFrameBuilder.pdo rtr c = .error (.InvalidCobId c) := by
      unfold CanOpenFrameBuilder.pdo extract_frame_type_and_node_id
      rw [if_pos hgt]
      rfl
    refine ⟨?_, fun _ => hpdo⟩
    rw [hpdo]
    simp only [Except.isOk, Except.toBool]
    constructor
    · intro hfalse; cases hfalse
    · intro hr; omega

/-- C4 counterexample: `0x580` lies inside the claimed range
`0x180..=0x5FF`, yet the builder rejects it with `InvalidCobId` (it is the
`SdoTx` function code, not a PDO); so the claim's range is wrong. -/
theorem c4_counterexample_cobid_0x580 :
    (0x180 ≤ 0x580 ∧ 0x580 ≤ 0x5FF) ∧
    CanOpenFrameBuilder.pdo false 0x580 = .error (.InvalidCobId 0x580) := by
  constructor
  · omega
  · decide

/-- C4 witness: the amended range theorem applied at `cob_id = 0x600`,
discharging the out-of-range hypothesis there. -/
theorem c4_witness_pdo_range :
    ¬(0x180 ≤ 0x600 ∧ 0x600 ≤ 0x57F) ∧
    CanOpenFrameBuilder.pdo false 0x600 = .error (.InvalidCobId 0x600) :=
  ⟨by decide,
   (c4_pdo_builder_accepts_exactly_pdo_function_codes false 0x600).2 (by decide)⟩

theorem write_expedited_length (data len : Nat) :
    ∀ (dst : List Nat) (i : Nat),
      (write_expedited data len i dst).length = dst.length := by
  intro dst
  induction dst with
  | nil => intro i; rfl
  | cons b rest ih => intro i; simp [write_expedited, ih]

theorem write_expedited_getD (data len : Nat) :
    ∀ (dst : List Nat) (i j : Nat),
      (write_expedited data len i dst).getD j 0 =
        if j < dst.length ∧ i + j < len then (data >>> (8 * (i + j))) &&& 0xFF
        else dst.getD j 0 := by
  intro dst
  induction dst with
  | nil => intro i j; simp [write_expedited]
  | cons b rest ih =>
      intro i j
      cases j with
      | zero =>
          by_cases h : i < len <;>
            simp [write_expedited, List.getD, h, Nat.add_zero]
      | succ j =>
          simp only [write_expedited, List.getD_cons_succ, List.length_cons]
          rw [ih (i + 1) j]
          by_cases hc : j < rest.length ∧ i + 1 + j < len
          · rw [if_pos hc, if_pos (by omega)]
            have h1 : i + 1 + j = i + (j + 1) := by omega
            rw [h1]
          · rw [if_neg hc, if_neg (by omega)]

/-- C6 (corrected): on an expedited upload response the client returns the
command-byte size field and copies `min(size, dst.len())` bytes
little-endian from the payload into the destination (positions at or
beyond `size` are untouched); the returned count therefore equals the
number of bytes written exactly when the destination is at least `size`
long — with a shorter destination the code still returns the size field
after filling only `dst.len()` bytes. -/
theorem c6_read_object_expedited_returns_size_field :
    ∀ (node index subindex : Nat) (pl : WithIndexPayload)
      (rtr : Bool) (rest : List CANOpenFrame) (dst : List Nat),
      pl.index = index →
      pl.subindex = subindex →
      pl.cs ≠ .Scs .Abort →
      pl.expedited_flag = true →
      let fr : CANOpenFrame :=
        { node_id := node, frame_type := .SdoTx, is_rtr := rtr,
          payload := .SdoWithIndex pl }
      let len := extract_length pl.size
      let out := write_expedited pl.data len 0 dst
      read_indexed node index subindex (fr :: rest) dst = .ok (len, out, rest) ∧
      out.length = dst.length ∧
      (∀ j, j < dst.length → j < len →
        out.getD j 0 = (pl.data >>> (8 * j)) &&& 0xFF) ∧
      (∀ j, len ≤ j → out.getD j 0 = dst.getD j 0) ∧
      (len ≤ 4 →
        read_object node index subindex (fr :: rest) dst
          = some (.ok (len, out))) := by
  intro node index subindex pl rtr rest dst hi hs hcs hexp
  subst hi hs
  have hstep : read_indexed node pl.index pl.subindex
      ({ node_id := node, frame_type := .SdoTx, is_rtr := rtr,
         payload := .SdoWithIndex pl } :: rest) dst
      = .ok (extract_length pl.size,
             write_expedited pl.data (extract_length pl.size) 0 dst, rest) := by
    have hcsb : (pl.cs == CommandSpecifier.Scs .Abort) = false := by
      rw [beq_eq_false_iff_ne]
      exact hcs
    simp [read_indexed, hcsb, hexp]
  refine ⟨hstep, write_expedited_length _ _ _ _, ?_, ?_, ?_⟩
  · intro j hj hlen
    rw [write_expedited_getD]
    rw [if_pos ⟨hj, by omega⟩]
    simp
  · intro j hlen
    rw [write_expedited_getD]
    rw [if_neg (by omega)]
  · intro hle
    simp [read_object, hstep, show ¬extract_length pl.size > 4 by omega]

/-- C6 counterexample: an expedited response announcing four bytes
(`0x77665544`) read into a two-byte destination: `read_object` returns
`4`, but only two bytes (`0x44, 0x55`) were written into the destination —
the returned count differs from the bytes actually written, and the four
announced bytes cannot all be copied, contrary to the claim's "for every
destination buffer dst (including one shorter than that size field)". -/
theorem c6_counterexample_short_destination :
    read_object 1 0x1122 0x33
      [{ node_id := 1, frame_type := .SdoTx, is_rtr := false,
         payload := .SdoWithIndex
           { cs := .Scs .Upload, size := .FourBytes, expedited_flag := true,
             index := 0x1122, subindex := 0x33, data := 0x77665544 } }]
      [0, 0]
      = some (.ok (4, [0x44, 0x55])) ∧
    ([0x44, 0x55] : List Nat).length = 2 ∧ (4 : Nat) ≠ 2 := by
  exact ⟨rfl, rfl, by decide⟩

theorem except_bind_ok {ε α β : Type _} (a : α) (f : α → Except ε β) :
    (Except.ok (ε := ε) a >>= f) = f a := rfl

theorem getD_eq_getElem_of_lt {α : Type _} (l : List α) (d : α) {i : Nat}
    (h : i < l.length) : l.getD i d = l[i] := by
  simp [List.getD_eq_getElem?_getD, List.getElem?_eq_getElem h]

theorem set_getD_self {α : Type _} :
    ∀ (l : List α) (i : Nat) (d : α), l.set i (l.getD i d) = l := by
  intro l
  induction l with
  | nil => intro i d; rfl
  | cons a t ih =>
      intro i d
      cases i with
      | zero => rfl
      | succ i =>
          have h := ih i d
          rw [List.getD_eq_getElem?_getD] at h
          simp [List.set, h]

theorem pairwise_mapped_lt_getD (objs : List CanOpenObject)
    (hsort : objs.Pairwise (fun a b => a.mapped_index < b.mapped_index))
    {i j : Nat} (hi : i < objs.length) (hj : j < objs.length) (hij : i < j) :
    (objs.getD i CanOpenObject.defaultObject).mapped_index
      < (objs.getD j CanOpenObject.defaultObject).mapped_index := by
  rw [getD_eq_getElem_of_lt _ _ hi, getD_eq_getElem_of_lt _ _ hj]
  exact List.pairwise_iff_getElem.mp hsort i j hi hj hij

theorem array_index_go_err_of_absent (objs : List CanOpenObject)
    (m index subindex : Nat)
    (habs : ∀ o ∈ objs, o.mapped_index ≠ m) :
    ∀ (fuel min max : Nat), max - min ≤ fuel → max ≤ objs.length →
      array_index_go objs m index subindex fuel min max
        = .error (.ObjectDoesNotExist index subindex) := by
  intro fuel
  induction fuel with
  | zero =>
      intro min max h1 h2
      rfl
  | succ k ih =>
      intro min max h1 h2
      rw [array_index_go]
      by_cases hmm : max ≤ min
      · rw [if_pos hmm]
      · rw [if_neg hmm]
        have hcb : (max - min) / 2 + min < max := by omega
        have hcl : (max - min) / 2 + min < objs.length := by omega
        have hmem :
            objs.getD ((max - min) / 2 + min) CanOpenObject.defaultObject
              ∈ objs := by
          rw [getD_eq_getElem_of_lt _ _ hcl]
          exact List.getElem_mem hcl
        have hne := habs _ hmem
        rw [if_neg (by simpa using hne)]
        by_cases h3 : max = min + 1
        · rw [if_pos (by simp [h3])]
        · rw [if_neg (by simp [h3])]
          by_cases h4 :
              (objs.getD ((max - min) / 2 + min)
                  CanOpenObject.defaultObject).mapped_index > m
          · rw [if_pos h4]
            exact ih min _ (by omega) (by omega)
          · rw [if_neg h4]
            exact ih _ max (by omega) h2

theorem array_index_go_ok_of_found (objs : List CanOpenObject)
    (m index subindex : Nat)
    (hsort : objs.Pairwise (fun a b => a.mapped_index < b.mapped_index))
    (j : Nat) (hj : j < objs.length)
    (hm : (objs.getD j CanOpenObject.defaultObject).mapped_index = m) :
    ∀ (fuel min max : Nat), max - min ≤ fuel → max ≤ objs.length →
      min ≤ j → j < max →
      array_index_go objs m index subindex fuel min max = .ok j := by
  intro fuel
  induction fuel with
  | zero => intro min max h1 h2 hmin hmax; omega
  | succ k ih =>
      intro min max h1 h2 hmin hmax
      rw [array_index_go, if_neg (show ¬max ≤ min by omega)]
      have hcb : (max - min) / 2 + min < max := by omega
      have hcl : (max - min) / 2 + min < objs.length := by omega
      by_cases hceq :
          (objs.getD ((max - min) / 2 + min)
              CanOpenObject.defaultObject).mapped_index = m
      · have hcj : (max - min) / 2 + min = j := by
          by_contra hne
          rcases Nat.lt_or_ge ((max - min) / 2 + min) j with hlt | hge
          · have := pairwise_mapped_lt_getD objs hsort hcl hj hlt
            omega
          · have hgt : j < (max - min) / 2 + min := by omega
            have := pairwise_mapped_lt_getD objs hsort hj hcl hgt
            omega
        rw [if_pos (by simp only [beq_iff_eq]; exact hceq), hcj]
      · rw [if_neg (by simp only [beq_iff_eq]; exact hceq)]
        by_cases h3 : max = min + 1
        · exfalso
          have hj_eq : j = min := by omega
          have hc_eq : (max - min) / 2 + min = min := by omega
          rw [hc_eq, ← hj_eq] at hceq
          exact hceq hm
        · rw [if_neg (by simp [h3])]
          by_cases h4 :
              (objs.getD ((max - min) / 2 + min)
                  CanOpenObject.defaultObject).mapped_index > m
          · have hjc : j < (max - min) / 2 + min := by
              by_contra hge
              push_neg at hge
              rcases Nat.eq_or_lt_of_le hge with heq | hlt
              · rw [← heq] at hm; exact hceq hm
              · have := pairwise_mapped_lt_getD objs hsort hcl hj hlt
                omega
            rw [if_pos h4]
            exact ih min _ (by omega) (by omega) hmin hjc
          · have h5 :
                (objs.getD ((max - min) / 2 + min)
                    CanOpenObject.defaultObject).mapped_index < m := by
              omega
            have hjc : (max - min) / 2 + min ≤ j := by
              by_contra h
              push_neg at h
              have := pairwise_mapped_lt_getD objs hsort hj hcl h
              omega
            rw [if_neg h4]
            exact ih _ max (by omega) h2 hjc hmax

theorem array_index_err_of_absent (od : ObjectDictionary)
    (index subindex : Nat)
    (habs : ∀ o ∈ od.objects, o.mapped_index ≠ map_index index subindex) :
    od.array_index index subindex
      = .error (.ObjectDoesNotExist index subindex) :=
  array_index_go_err_of_absent od.objects _ index subindex habs
    od.objects.length 0 od.objects.length (by omega) le_rfl

theorem array_index_ok_of_found (od : ObjectDictionary)
    (index subindex j : Nat)
    (hsort : od.objects.Pairwise (fun a b => a.mapped_index < b.mapped_index))
    (hj : j < od.objects.length)
    (hm : (od.objects.getD j CanOpenObject.defaultObject).mapped_index
      = map_index index subindex) :
    od.array_index index subindex = .ok j :=
  array_index_go_ok_of_found od.objects _ index subindex hsort j hj hm
    od.objects.length 0 od.objects.length (by omega) le_rfl (by omega) hj

/-- C10: writing an unchanged value to a mutable object-dictionary entry is
a no-op.  For a `Variable` or `Persistent` entry whose stored value equals
(same variant, Rust `==`) the written value, `set_object_value` returns
`Ok(())`, leaves the dictionary unchanged, and invokes neither the
`update_pdo` nor the `persist_value` hook; and whenever the call invokes
any hook, the written value differed from the stored one. -/
theorem c10_unchanged_write_is_noop :
    ∀ (od : ObjectDictionary) (index subindex j : Nat) (obj : CanOpenObject)
      (v w : ValueVariant),
      od.objects.Pairwise (fun a b => a.mapped_index < b.mapped_index) →
      j < od.objects.length →
      od.objects.getD j CanOpenObject.defaultObject = obj →
      obj.mapped_index = map_index index subindex →
      (obj.value = .Variable v ∨ obj.value = .Persistent v) →
      sameDiscriminant w v = true →
      (valueVariantEq v w = true →
        od.set_object_value index subindex w = .ok (od, [])) ∧
      (∀ od2 hooks,
        od.set_object_value index subindex w = .ok (od2, hooks) →
        hooks ≠ [] → valueVariantEq v w = false) := by
  intro od index subindex j obj v w hsort hj hobj hmap hval hdisc
  have hidx : od.array_index index subindex = .ok j :=
    array_index_ok_of_found od index subindex j hsort hj
      (by rw [hobj]; exact hmap)
  have hset : od.objects.set j obj = od.objects := by
    rw [← hobj]
    exact set_getD_self od.objects j CanOpenObject.defaultObject
  have hobj2 : od.objects[j]?.getD CanOpenObject.defaultObject = obj := by
    rw [← List.getD_eq_getElem?_getD]
    exact hobj
  have hnoop : valueVariantEq v w = true →
      od.set_object_value index subindex w = .ok (od, []) := by
    intro heq
    rcases hval with hv | hv <;>
      simp [ObjectDictionary.set_object_value, hidx, except_bind_ok, hobj2,
        hv, CanOpenObject.set_value, hdisc, heq, hset]
  refine ⟨hnoop, ?_⟩
  intro od2 hooks hcall hne
  by_cases heq : valueVariantEq v w = true
  · rw [hnoop heq] at hcall
    cases hcall
    exact absurd rfl hne
  · simpa using heq

/-- C10 witness: the no-op theorem applied to a one-entry dictionary with a
`Variable`-stored `U8 5` at `0x2000,0x01`, rewriting the same value. -/
theorem c10_witness_noop_write :
    ObjectDictionary.set_object_value
      { objects := [{ mapped_index := map_index 0x2000 0x01,
                      value := .Variable (.U8 5), privilege := .ReadWrite }],
        node_id := 1 }
      0x2000 0x01 (.U8 5)
      = .ok ({ objects := [{ mapped_index := map_index 0x2000 0x01,
                             value := .Variable (.U8 5),
                             privilege := .ReadWrite }],
               node_id := 1 }, []) :=
  (c10_unchanged_write_is_noop
      { objects := [{ mapped_index := map_index 0x2000 0x01,
                      value := .Variable (.U8 5), privilege := .ReadWrite }],
        node_id := 1 }
      0x2000 0x01 0
      { mapped_index := map_index 0x2000 0x01,
        value := .Variable (.U8 5), privilege := .ReadWrite }
      (.U8 5) (.U8 5)
      (by simp) (by simp) rfl rfl (Or.inl rfl) rfl).1 rfl

theorem insertScan_none_of_mem (o : CanOpenObject) :
    ∀ (l : List CanOpenObject),
      l.Pairwise (fun a b => a.mapped_index < b.mapped_index) →
      (∃ x ∈ l, x.mapped_index = o.mapped_index) →
      insertScan o l = none := by
  intro l
  induction l with
  | nil =>
      intro _ h
      rcases h with ⟨x, hx, _⟩
      cases hx
  | cons a t ih =>
      intro hsort hex
      rcases hex with ⟨x, hx, hxm⟩
      by_cases h1 : a.mapped_index = o.mapped_index
      · simp [insertScan, h1]
      · rcases List.mem_cons.mp hx with rfl | hxt
        · exact absurd hxm h1
        · have hax := (List.pairwise_cons.mp hsort).1 x hxt
          have h2 : ¬a.mapped_index > o.mapped_index := by omega
          simp [insertScan, beq_iff_eq, h1, h2,
            ih (List.pairwise_cons.mp hsort).2 ⟨x, hxt, hxm⟩]

theorem insertScan_some_of_absent (o : CanOpenObject) :
    ∀ (l : List CanOpenObject),
      l.Pairwise (fun a b => a.mapped_index < b.mapped_index) →
      (∀ x ∈ l, x.mapped_index ≠ o.mapped_index) →
      ∃ l2, insertScan o l = some l2 ∧
        l2.Pairwise (fun a b => a.mapped_index < b.mapped_index) ∧
        l2.length = l.length + 1 ∧
        (∀ y, y ∈ l2 ↔ y = o ∨ y ∈ l) := by
  intro l
  induction l with
  | nil =>
      intro _ _
      exact ⟨[o], rfl, List.pairwise_singleton _ _, rfl, by simp⟩
  | cons a t ih =>
      intro hsort habs
      have h1 : a.mapped_index ≠ o.mapped_index := habs a (by simp)
      by_cases h2 : a.mapped_index > o.mapped_index
      · refine ⟨o :: a :: t, by simp [insertScan, beq_iff_eq, h1, h2], ?_,
          by simp, by intro y; simp [or_comm]⟩
        rw [List.pairwise_cons]
        refine ⟨?_, hsort⟩
        intro y hy
        rcases List.mem_cons.mp hy with rfl | hyt
        · omega
        · have := (List.pairwise_cons.mp hsort).1 y hyt
          omega
      · have h2lt : a.mapped_index < o.mapped_index := by omega
        obtain ⟨l2, hscan, hs2, hl2, hm2⟩ :=
          ih (List.pairwise_cons.mp hsort).2
            (fun x hx => habs x (List.mem_cons_of_mem _ hx))
        refine ⟨a :: l2, by simp [insertScan, beq_iff_eq, h1, h2, hscan],
          ?_, by simp [hl2], ?_⟩
        · rw [List.pairwise_cons]
          refine ⟨?_, hs2⟩
          intro y hy
          rcases (hm2 y).mp hy with rfl | hyt
          · exact h2lt
          · exact (List.pairwise_cons.mp hsort).1 y hyt
        · intro y
          simp [hm2 y]
          tauto

/-- C8 (corrected): for every builder state with strictly ascending mapped
indices and fewer than `MAX_NUMBER_OF_OBJECTS` (256) occupied slots,
`custom_entry` with an absent mapped index inserts the object keeping the
entries strictly ascending and growing the count by one, and
`custom_entry` with an already-present mapped index panics; only the
claim's full-dictionary case fails, where `custom_entry` panics
("Object dictionary too small.") instead of inserting. -/
theorem c8_custom_entry_insertion_keeps_order :
    ∀ (b : ObjectDictionaryBuilder) (o : CanOpenObject),
      b.objects.Pairwise (fun a c => a.mapped_index < c.mapped_index) →
      ((∃ x ∈ b.objects, x.mapped_index = o.mapped_index) →
        b.custom_entry o = none) ∧
      (b.objects.length < MAX_NUMBER_OF_OBJECTS →
       (∀ x ∈ b.objects, x.mapped_index ≠ o.mapped_index) →
       ∃ b2, b.custom_entry o = some b2 ∧
         b2.objects.Pairwise (fun a c => a.mapped_index < c.mapped_index) ∧
         b2.objects.length = b.objects.length + 1 ∧
         o ∈ b2.objects) := by
  intro b o hsort
  constructor
  · intro hex
    unfold ObjectDictionaryBuilder.custom_entry
    by_cases hlen : b.objects.length ≥ MAX_NUMBER_OF_OBJECTS
    · rw [if_pos hlen]
    · rw [if_neg hlen, insertScan_none_of_mem o b.objects hsort hex]
      rfl
  · intro hlen habs
    obtain ⟨l2, hscan, hs2, hl2, hm2⟩ :=
      insertScan_some_of_absent o b.objects hsort habs
    refine ⟨{ objects := l2 }, ?_, hs2, hl2, (hm2 o).mpr (Or.inl rfl)⟩
    unfold ObjectDictionaryBuilder.custom_entry
    rw [if_neg (by omega), hscan]
    rfl

/-- C8 witness: the insertion theorem applied to the standard minimal
builder and a fresh entry at `0x6000,0x01`, discharging the sortedness,
capacity and absence hypotheses there. -/
theorem c8_witness_custom_entry :
    ∃ b2, (ObjectDictionaryBuilder.new 123 456).custom_entry
        (CanOpenObject.const_object 0x6000 0x01 (.U8 0)) = some b2 ∧
      b2.objects.Pairwise (fun a c => a.mapped_index < c.mapped_index) ∧
      b2.objects.length
        = (ObjectDictionaryBuilder.new 123 456).objects.length + 1 ∧
      CanOpenObject.const_object 0x6000 0x01 (.U8 0) ∈ b2.objects :=
  (c8_custom_entry_insertion_keeps_order
      (ObjectDictionaryBuilder.new 123 456)
      (CanOpenObject.const_object 0x6000 0x01 (.U8 0))
      (by decide)).2 (by decide) (by decide)

/-- C8 counterexample: a builder whose 256 slots are all occupied, with
strictly ascending mapped indices and mapped index 300 absent — yet
`custom_entry` panics (`none`, "Object dictionary too small.") instead of
inserting, so the claim as stated fails at full capacity. -/
theorem c8_counterexample_full_dictionary :
    fullBuilder.objects.Pairwise
      (fun a c => a.mapped_index < c.mapped_index) ∧
    (∀ x ∈ fullBuilder.objects,
      x.mapped_index ≠ freshObject300.mapped_index) ∧
    fullBuilder.custom_entry freshObject300 = none := by
  refine ⟨?_, ?_, ?_⟩
  · exact (List.pairwise_lt_range _).map _ (fun a c h => by simpa using h)
  · intro x hx
    rcases List.mem_map.mp hx with ⟨k, hk, rfl⟩
    have hk2 : k < 256 := by
      have hmem := List.mem_range.mp hk
      simpa [MAX_NUMBER_OF_OBJECTS] using hmem
    show k ≠ freshObject300.mapped_index
    simp only [freshObject300]
    omega
  · unfold ObjectDictionaryBuilder.custom_entry fullBuilder
    rw [if_pos (by simp)]

theorem cast_preserves_discriminant (v w : ValueVariant)
    (pl : WithIndexPayload)
    (h : cast_indexed_payload_to_value_variant v pl = some w) :
    sameDiscriminant w v = true := by
  cases v <;> simp [cast_indexed_payload_to_value_variant] at h <;>
    (rcases h with ⟨h1, h2⟩; subst h2; rfl)

/-- C5 (corrected): dispatch of an expedited `InitiateDownload` (write)
request addressed to the server's node.  With the entries in ascending
mapped-index order: an absent `(index, subindex)` is answered with an
`ObjectDoesNotExist` abort; a payload whose size field does not match the
stored value's type is answered with a `WrongLength` abort — this check
runs BEFORE the access check, so it also covers read-only entries; a
read-only entry with a matching size field is answered with a
`WriteReadOnlyError` abort (for a 4-byte write to the `Const` `U32` at
`0x1000,0x01` of node 1, the response frame is
`id=0x581 data=[0x80, 0x00, 0x10, 0x01, 0x02, 0x00, 0x01, 0x06]`); a
successful write to a read-write `Variable`/`Persistent` entry is answered
with a `DownloadResponse` frame. -/
theorem c5_sdo_server_expedited_download_dispatch :
    ∀ (node : Nat) (od : ObjectDictionary) (pl : WithIndexPayload)
      (rtr : Bool) (j : Nat) (obj : CanOpenObject) (v : ValueVariant),
      node ≤ 0x7F →
      od.objects.Pairwise (fun a c => a.mapped_index < c.mapped_index) →
      pl.cs = .Ccs .Download →
      ((∀ o ∈ od.objects, o.mapped_index ≠ map_index pl.index pl.subindex) →
        process_frame node od
            { node_id := node, frame_type := .SdoRx, is_rtr := rtr,
              payload := .SdoWithIndex pl }
          = abortResponse node pl.index pl.subindex .ObjectDoesNotExist) ∧
      (j < od.objects.length →
       od.objects.getD j CanOpenObject.defaultObject = obj →
       obj.mapped_index = map_index pl.index pl.subindex →
       ((obj.get_value = .ok v →
         cast_indexed_payload_to_value_variant v pl = none →
         process_frame node od
             { node_id := node, frame_type := .SdoRx, is_rtr := rtr,
               payload := .SdoWithIndex pl }
           = abortResponse node pl.index pl.subindex .WrongLength) ∧
        (∀ w, obj.get_value = .ok v →
         cast_indexed_payload_to_value_variant v pl = some w →
         obj.privilege = .ReadOnly →
         process_frame node od
             { node_id := node, frame_type := .SdoRx, is_rtr := rtr,
               payload := .SdoWithIndex pl }
           = abortResponse node pl.index pl.subindex .WriteReadOnlyError) ∧
        (∀ w, (obj.value = .Variable v ∨ obj.value = .Persistent v) →
         obj.privilege = .ReadWrite →
         cast_indexed_payload_to_value_variant v pl = some w →
         process_frame node od
             { node_id := node, frame_type := .SdoRx, is_rtr := rtr,
               payload := .SdoWithIndex pl }
           = (CanOpenFrameBuilder.sdo_response node).toOption.map
               (fun b =>
                 (b.with_index pl.index pl.subindex).download_response.build)))) ∧
      (process_frame 1 s4Dictionary
          { node_id := 1, frame_type := .SdoRx, is_rtr := false,
            payload := .SdoWithIndex
              { cs := .Ccs .Download, size := .FourBytes,
                expedited_flag := true, index := 0x1000, subindex := 0x01,
                data := 0 } }
        = some s4AbortFrame ∧
       s4AbortFrame.cob_id = 0x581 ∧
       s4AbortFrame.wireData
        = [0x80, 0x00, 0x10, 0x01, 0x02, 0x00, 0x01, 0x06] ∧
       SDOAbortCode.fromU32 0x06010002 = .WriteReadOnlyError) := by
  intro node od pl rtr j obj v hnode hsort hcs
  refine ⟨?_, ?_, by decide, rfl, by decide, by decide⟩
  · -- absent entry
    intro habs
    have hgov : od.get_object_value pl.index pl.subindex
        = .error (.ObjectDoesNotExist pl.index pl.subindex) := by
      unfold ObjectDictionary.get_object_value
      rw [array_index_err_of_absent od pl.index pl.subindex habs]
      rfl
    simp [process_frame, process_frame_with_index, hcs, hgov]
  · intro hj hobj hmap
    have hidx : od.array_index pl.index pl.subindex = .ok j :=
      array_index_ok_of_found od pl.index pl.subindex j hsort hj
        (by rw [hobj]; exact hmap)
    have hobj2 : od.objects[j]?.getD CanOpenObject.defaultObject = obj := by
      rw [← List.getD_eq_getElem?_getD]
      exact hobj
    refine ⟨?_, ?_, ?_⟩
    · -- size mismatch
      intro hgv hcast
      have hgov : od.get_object_value pl.index pl.subindex = .ok v := by
        simp [ObjectDictionary.get_object_value, hidx, except_bind_ok,
          hobj2, hgv]
      simp [process_frame, process_frame_with_index, hcs, hgov, hcast]
    · -- read-only entry, size matches
      intro w hgv hcast hpriv
      have hgov : od.get_object_value pl.index pl.subindex = .ok v := by
        simp [ObjectDictionary.get_object_value, hidx, except_bind_ok,
          hobj2, hgv]
      have hdl : od.download_expedited pl.index pl.subindex w
          = .error .WritingForbidden := by
        simp [ObjectDictionary.download_expedited, hidx, except_bind_ok,
          hobj2, hpriv]
      simp [process_frame, process_frame_with_index, hcs, hgov, hcast, hdl]
    · -- writable entry, size matches: download response
      intro w hval hpriv hcast
      have hgv : obj.get_value = .ok v := by
        rcases hval with hv | hv <;> simp [CanOpenObject.get_value, hv]
      have hgov : od.get_object_value pl.index pl.subindex = .ok v := by
        simp [ObjectDictionary.get_object_value, hidx, except_bind_ok,
          hobj2, hgv]
      have hdisc : sameDiscriminant w v = true :=
        cast_preserves_discriminant v w pl hcast
      have hdl : ∃ r, od.download_expedited pl.index pl.subindex w
          = .ok r := by
        rcases hval with hv | hv <;>
          by_cases heq : valueVariantEq v w = true <;>
          simp [ObjectDictionary.download_expedited,
            ObjectDictionary.set_object_value, hidx, except_bind_ok,
            hobj2, hpriv, hv, CanOpenObject.set_value, hdisc, heq]
      rcases hdl with ⟨r, hdl⟩
      simp [process_frame, process_frame_with_index, hcs, hgov, hcast, hdl]

/-- C5 witness: the dispatch theorem applied to the S-4 dictionary and a
write to the absent entry `0x5000,0x02`, discharging the node-id,
sortedness, command-specifier and absence hypotheses there. -/
theorem c5_witness_absent_entry :
    process_frame 1 s4Dictionary
        { node_id := 1, frame_type := .SdoRx, is_rtr := false,
          payload := .SdoWithIndex
            { cs := .Ccs .Download, size := .OneByte, expedited_flag := true,
              index := 0x5000, subindex := 0x02, data := 7 } }
      = abortResponse 1 0x5000 0x02 .ObjectDoesNotExist :=
  (c5_sdo_server_expedited_download_dispatch 1 s4Dictionary
      { cs := .Ccs .Download, size := .OneByte, expedited_flag := true,
        index := 0x5000, subindex := 0x02, data := 7 } false 0
      CanOpenObject.defaultObject (.U8 0)
      (by decide) (by decide) rfl).1 (by decide)

/-- C5 counterexample: the entry `0x1000,0x01` of the S-4 dictionary is
`Const`-stored and read-only, so by the claim a write to it must be
answered with a `WriteReadOnlyError` abort — but a one-byte write (size
field mismatching the stored `U32`) is answered with a `WrongLength`
abort instead: the size check runs before the access check. -/
theorem c5_counterexample_const_entry_size_mismatch :
    (s4Dictionary.objects.getD 0 CanOpenObject.defaultObject).privilege
        = .ReadOnly ∧
    (s4Dictionary.objects.getD 0 CanOpenObject.defaultObject).value
        = .Const (.U32 0xFFFF0000) ∧
    (s4Dictionary.objects.getD 0 CanOpenObject.defaultObject).mapped_index
        = map_index 0x1000 0x01 ∧
    process_frame 1 s4Dictionary
        { node_id := 1, frame_type := .SdoRx, is_rtr := false,
          payload := .SdoWithIndex
            { cs := .Ccs .Download, size := .OneByte, expedited_flag := true,
              index := 0x1000, subindex := 0x01, data := 0 } }
      = abortResponse 1 0x1000 0x01 .WrongLength ∧
    abortResponse 1 0x1000 0x01 .WrongLength
      ≠ abortResponse 1 0x1000 0x01 .WriteReadOnlyError := by
  decide

/-- C6 witness: the expedited-copy theorem applied to a two-byte expedited
response read into a four-byte destination, discharging the matching and
flag hypotheses there. -/
theorem c6_witness_expedited_two_bytes :
    read_indexed 1 0x1122 0x33
      [{ node_id := 1, frame_type := .SdoTx, is_rtr := false,
         payload := .SdoWithIndex
           { cs := .Scs .Upload, size := .TwoBytes, expedited_flag := true,
             index := 0x1122, subindex := 0x33, data := 0x5544 } }]
      [0, 0, 0, 0]
      = .ok (2, write_expedited 0x5544 2 0 [0, 0, 0, 0], []) :=
  (c6_read_object_expedited_returns_size_field 1 0x1122 0x33
      { cs := .Scs .Upload, size := .TwoBytes, expedited_flag := true,
        index := 0x1122, subindex := 0x33, data := 0x5544 }
      false [] [0, 0, 0, 0] rfl rfl (by decide) rfl).1

end Canopen
